import Mathlib

/-!
Verification development for the FigGen repository (src/core/data_analyzer.py,
src/core/models.py, src/core/template_manager.py, src/viz/viz_engine.py,
src/components/chart_preview.py).

The Python code is shallowly embedded: pandas DataFrames become lists of typed
columns, Python floats are modelled exactly as rationals, Python exceptions
become an explicit `Except` channel, and calls into the external libraries
(pandas, plotly, json, yaml) are modelled at their call boundary: the arguments
handed to the library are recorded, and the library's documented raising and
round-tripping behaviour is reproduced.
-/

namespace FigGen

/-- A Python scalar value that can sit in a pandas DataFrame cell.
`null` stands for None / NaN / NaT (pandas missing values).  Finite floats are
modelled exactly as rationals.  `vComplexObj` stands for a dict/list/set value
(unhashable: hashing raises TypeError); `vRaising` stands for an arbitrary
Python object whose hash/comparison raises a non-TypeError exception (object
columns can hold any Python object, so pandas operations on them can raise
arbitrary exceptions). -/
inductive Val where
  | null : Val
  | vBool (b : Bool) : Val
  | vInt (n : Int) : Val
  | vFloat (q : Rat) : Val
  | vStr (s : String) : Val
  | vDate (t : Int) : Val
  | vComplexObj (r : String) : Val
  | vRaising (r : String) : Val
deriving Repr, DecidableEq

/-- The pandas dtypes that matter to the analyzer's checks. `timedelta64`
stands in for the dtypes that are neither boolean, datetime, numeric nor
object. -/
inductive Dtype where
  | bool | int64 | float64 | datetime64 | object | timedelta64
deriving Repr, DecidableEq

/-- `str(series.dtype)`. -/
def dtypeStr : Dtype → String
  | .bool => "bool"
  | .int64 => "int64"
  | .float64 => "float64"
  | .datetime64 => "datetime64[ns]"
  | .object => "object"
  | .timedelta64 => "timedelta64[ns]"

/-- One named, typed pandas column. -/
structure DFColumn where
  name : String
  dtype : Dtype
  vals : List Val
deriving Repr, DecidableEq

/-- A pandas DataFrame: an ordered list of columns (column names are unique
within a table, per the data model; all columns have the same length). -/
structure DataFrame where
  cols : List DFColumn
deriving Repr, DecidableEq

def DataFrame.columnNames (df : DataFrame) : List String := df.cols.map (·.name)

/-- `df[name]` as a lookup; `none` when the column is absent. -/
def DataFrame.getCol? (df : DataFrame) (name : String) : Option DFColumn :=
  df.cols.find? (fun c => c.name == name)

/-- `len(df)`: the number of rows (length of the first column; 0 when the
frame has no columns). -/
def DataFrame.nRows (df : DataFrame) : Nat :=
  match df.cols with
  | [] => 0
  | c :: _ => c.vals.length

/-- `df.index` for a default RangeIndex: 0,1,2,... -/
def DataFrame.indexVals (df : DataFrame) : List Val :=
  (List.range df.nRows).map (fun i => Val.vInt i)

/-- `series.dropna()`: the non-null values in order. -/
def nonNull (vs : List Val) : List Val := vs.filter (fun v => !(v == Val.null))

/-- The numeric content of a value under Python equality (`True == 1`,
`False == 0`, `1.0 == 1`). -/
def toQ? : Val → Option Rat
  | .vBool b => some (if b then 1 else 0)
  | .vInt n => some (n : Rat)
  | .vFloat q => some q
  | _ => none

/-- Python `==` between two cell values (numeric values compare across
bool/int/float; NaN is never equal to anything, including itself). -/
def pyEqVal (a b : Val) : Bool :=
  match toQ? a, toQ? b with
  | some x, some y => x == y
  | _, _ =>
    match a, b with
    | .vStr s, .vStr t => s == t
    | .vDate s, .vDate t => s == t
    | _, _ => false

/-- Is the value unhashable (a dict/list/set)? -/
def isUnhashable : Val → Bool
  | .vComplexObj _ => true
  | _ => false

/-- Does hashing/comparing the value raise a non-TypeError exception? -/
def isRaisingObj : Val → Bool
  | .vRaising _ => true
  | _ => false

/-- The Python exceptions the embedded code distinguishes. -/
inductive PyExc where
  | typeError (m : String)
  | keyError (m : String)
  | valueError (m : String)
  | indexError (m : String)
  | attributeError (m : String)
  | otherError (m : String)
deriving Repr, DecidableEq

/-- Is the exception a TypeError (for `except TypeError` clauses)? -/
def PyExc.isTypeError : PyExc → Bool
  | .typeError _ => true
  | _ => false

/-- `str(e)` for the exception. -/
def PyExc.msg : PyExc → String
  | .typeError m => m
  | .keyError m => m
  | .valueError m => m
  | .indexError m => m
  | .attributeError m => m
  | .otherError m => m

/-- `series.nunique()` on the non-null values: counts distinct values under
Python equality, scanning in order; raises TypeError at the first unhashable
value and an arbitrary exception at the first `vRaising` object. -/
def nuniqueGo (seen : List Val) : List Val → Except PyExc Nat
  | [] => .ok seen.length
  | v :: rest =>
    match v with
    | .vComplexObj _ => .error (.typeError "unhashable type")
    | .vRaising m => .error (.otherError m)
    | _ => nuniqueGo (if seen.any (fun w => pyEqVal w v) then seen else seen ++ [v]) rest

def nuniqueE (vs : List Val) : Except PyExc Nat := nuniqueGo [] (nonNull vs)

/-- `DataAnalyzer.CATEGORICAL_THRESHOLD`. -/
def CATEGORICAL_THRESHOLD : Nat := 20

/-- `ColumnType` from src/core/models.py. -/
inductive ColumnType where
  | NUMERIC | CATEGORICAL | TEMPORAL | TEXT | BOOLEAN | UNKNOWN
deriving Repr, DecidableEq

/-- `ColumnType(...).value`. -/
def columnTypeValue : ColumnType → String
  | .NUMERIC => "numeric"
  | .CATEGORICAL => "categorical"
  | .TEMPORAL => "temporal"
  | .TEXT => "text"
  | .BOOLEAN => "boolean"
  | .UNKNOWN => "unknown"

/-- Membership of a value in the Python set literal containing True, False, 0
and 1 (under Python equality that set has the two elements 0 and 1, and any
bool/int/float equal to 0 or 1 is a member). -/
def pyIn01 (v : Val) : Bool :=
  match toQ? v with
  | some q => q == 0 || q == 1
  | none => false

/-- `set(series.dropna().unique()).issubset(...)` with its raising behaviour:
building the set raises TypeError at an unhashable value and an arbitrary
exception at a `vRaising` object (first offender in scan order wins). -/
def boolSubsetCheckE (vs : List Val) : Except PyExc Bool :=
  match (nonNull vs).find? (fun v => isUnhashable v || isRaisingObj v) with
  | some (.vComplexObj _) => .error (.typeError "unhashable type")
  | some (.vRaising m) => .error (.otherError m)
  | _ => .ok ((nonNull vs).all pyIn01)

/-- `pd.api.types.is_numeric_dtype` (bool dtype counts as numeric in pandas). -/
def pandasIsNumericDtype : Dtype → Bool
  | .bool => true
  | .int64 => true
  | .float64 => true
  | _ => false

/-- Model of the external `pd.to_datetime(..., format='mixed')` succeeding on
one string: a conservative stand-in accepting ISO-style `YYYY-MM-DD` prefixes.
Which strings the library parses is a library-internal detail; no claim
depends on the exact predicate. -/
def strLooksDate (s : String) : Bool :=
  let cs := s.toList
  cs.length ≥ 10 &&
    (cs.take 4).all Char.isDigit &&
    (cs.getD 4 ' ' == '-') &&
    ((cs.drop 5).take 2).all Char.isDigit &&
    (cs.getD 7 ' ' == '-') &&
    ((cs.drop 8).take 2).all Char.isDigit

def isStrVal : Val → Bool
  | .vStr _ => true
  | _ => false

/-- `DataAnalyzer._is_datetime_column`: look at the first 100 non-null values;
empty sample → False; if any of the first five is not a string → False; else
try `pd.to_datetime(sample, format='mixed')`, catching ValueError/TypeError
(a non-string later in the sample makes the parse fail). -/
def isDatetimeColumn (vs : List Val) : Bool :=
  let sample := (nonNull vs).take 100
  if sample.isEmpty then false
  else if !(sample.take 5).all isStrVal then false
  else sample.all (fun v =>
    match v with
    | .vStr s => strLooksDate s
    | _ => false)

/-- `DataAnalyzer._detect_column_type`.  The boolean check sits in a
`try/except TypeError: pass` block: a TypeError from building the value set is
swallowed (the check is treated as not taken), any other exception
propagates.  When the boolean condition holds but `unique_count > 2` the code
falls through to the remaining checks. -/
def detectColumnTypeE (d : Dtype) (vs : List Val) (uniqueCount : Nat) :
    Except PyExc ColumnType := do
  let bcond ←
    if d == Dtype.bool then pure true
    else
      match boolSubsetCheckE vs with
      | .ok b => pure b
      | .error e => if e.isTypeError then pure false else .error e
  if bcond && uniqueCount ≤ 2 then
    return ColumnType.BOOLEAN
  else if d == Dtype.datetime64 then
    return ColumnType.TEMPORAL
  else if d == Dtype.object && isDatetimeColumn vs then
    return ColumnType.TEMPORAL
  else if pandasIsNumericDtype d then
    -- the source's high/low cardinality split returns NUMERIC on both sides
    return ColumnType.NUMERIC
  else if d == Dtype.object then
    if uniqueCount ≤ CATEGORICAL_THRESHOLD then return ColumnType.CATEGORICAL
    else return ColumnType.TEXT
  else
    return ColumnType.UNKNOWN

/-- Exact value of a real number produced by the analyzer's statistics:
either a rational or the (possibly irrational) square root of a rational,
kept symbolic.  Python computes these in floating point; the model keeps
them exact. -/
inductive RealVal where
  | ofQ (q : Rat)
  | sqrtQ (q : Rat)
deriving Repr, DecidableEq

/-- Python `round(x, 2)` (banker's rounding at two decimals, on the ideal
real value). -/
def roundHalfEven (x : Rat) : Int :=
  let f : Int := ⌊x⌋
  let r : Rat := x - (f : Rat)
  if r < 1/2 then f
  else if r > 1/2 then f + 1
  else if f % 2 == 0 then f else f + 1

def round2 (x : Rat) : Rat := (roundHalfEven (x * 100) : Rat) / 100

/-- `ColumnProfile` from src/core/models.py. -/
structure ColumnProfile where
  name : String
  dtype : String
  column_type : ColumnType
  null_count : Int
  null_percentage : Rat
  unique_count : Nat
  sample_values : List Val := []
  min_value : Option Rat := none
  max_value : Option Rat := none
  mean_value : Option Rat := none
  std_value : Option RealVal := none
  top_categories : Option (List (String × Int)) := none
deriving Repr, DecidableEq

/-- `DataAnalyzer._contains_complex_objects`: only object columns are
checked, and only the first 10 non-null values are inspected. -/
def containsComplexObjects (c : DFColumn) : Bool :=
  if c.dtype != Dtype.object then false
  else ((nonNull c.vals).take 10).any isUnhashable

/-- `str(v)` of a cell value (the library's float/date formatting is
abstracted by `toString`; no claim inspects these strings). -/
def pyStr : Val → String
  | .null => "nan"
  | .vBool b => if b then "True" else "False"
  | .vInt n => toString n
  | .vFloat q => toString q
  | .vStr s => s
  | .vDate t => toString t
  | .vComplexObj r => r
  | .vRaising r => r

/-- `DataAnalyzer._safe_value`: dict/list/set → `str(v)[:100]`,
timestamps → `str(v)`, everything else unchanged. -/
def safeValue (v : Val) : Val :=
  match v with
  | .vComplexObj r => .vStr (r.take 100)
  | .vDate t => .vStr (pyStr (Val.vDate t))
  | v => v

/-- `int(series.isnull().sum())`. -/
def nullCountOf (vs : List Val) : Int := (vs.filter (fun v => v == Val.null)).length

/-- Stable insertion by descending count (for the value-count ordering). -/
def insByCountDesc (p : Val × Nat) : List (Val × Nat) → List (Val × Nat)
  | [] => [p]
  | q :: qs => if p.2 ≥ q.2 then p :: q :: qs else q :: insByCountDesc p qs

/-- `series.value_counts().head(10)` keys stringified: distinct non-null
values in first-appearance order with their counts, stably sorted by count
descending, first 10.  (pandas' tie order is an implementation detail; no
claim depends on it.)  Returns none when counting raises (unhashable or
raising objects), mirroring the enclosing `except Exception: pass`. -/
def valueCountsTop10 (vs : List Val) : Option (List (String × Int)) :=
  if (nonNull vs).any (fun v => isUnhashable v || isRaisingObj v) then none
  else
    let distinct := (nonNull vs).foldl
      (fun acc v => if acc.any (fun w => pyEqVal w v) then acc else acc ++ [v]) []
    let counted := distinct.map
      (fun v => (v, ((nonNull vs).filter (fun w => pyEqVal w v)).length))
    let sorted := counted.foldr insByCountDesc []
    some ((sorted.take 10).map (fun p => (pyStr p.1, (p.2 : Int))))

/-- The numeric values of a column (what pandas' min/max/mean/std see for a
numeric-dtype series: nulls are NaN and are skipped). -/
def numericVals (vs : List Val) : List Rat := vs.filterMap toQ?

def listMinQ? (qs : List Rat) : Option Rat := qs.min?
def listMaxQ? (qs : List Rat) : Option Rat := qs.max?

def listMeanQ? (qs : List Rat) : Option Rat :=
  if qs.isEmpty then none else some (qs.sum / (qs.length : Rat))

/-- `float(series.std())`: sample standard deviation (ddof=1), NaN (→ none)
for fewer than two values; kept exact as the square root of the sample
variance. -/
def listStdQ? (qs : List Rat) : Option RealVal :=
  match listMeanQ? qs with
  | none => none
  | some m =>
    if qs.length < 2 then none
    else some (.sqrtQ ((qs.map (fun x => (x - m) ^ 2)).sum / ((qs.length - 1 : Nat) : Rat)))

/-- `DataAnalyzer._analyze_column`.  The `except TypeError` around `nunique`
is explicit; the try/except blocks around sample values, numeric stats and
value counts catch everything their bodies can raise, so those steps are
total here.  A non-TypeError exception (from a `vRaising` object) escapes,
matching the Python code, where only the caller's `except Exception`
catches it. -/
def analyzeColumnE (df : DataFrame) (c : DFColumn) : Except PyExc ColumnProfile := do
  if containsComplexObjects c then
    return { name := c.name
             dtype := dtypeStr c.dtype
             column_type := ColumnType.UNKNOWN
             null_count := nullCountOf c.vals
             null_percentage :=
               if df.nRows > 0 then round2 ((nullCountOf c.vals : Rat) / (df.nRows : Rat) * 100) else 0
             unique_count := 0
             sample_values := ((nonNull c.vals).take 3).map (fun v => .vStr ((pyStr v).take 50)) }
  let null_count := nullCountOf c.vals
  let null_pct : Rat :=
    if df.nRows > 0 then round2 ((null_count : Rat) / (df.nRows : Rat) * 100) else 0
  let unique_count ←
    match nuniqueE c.vals with
    | .ok n => pure n
    | .error e => if e.isTypeError then pure 0 else .error e
  let col_type ← detectColumnTypeE c.dtype c.vals unique_count
  let sample_values := ((nonNull c.vals).take 5).map safeValue
  let qs := numericVals c.vals
  return { name := c.name
           dtype := dtypeStr c.dtype
           column_type := col_type
           null_count := null_count
           null_percentage := null_pct
           unique_count := unique_count
           sample_values := sample_values
           min_value := if col_type == ColumnType.NUMERIC then listMinQ? qs else none
           max_value := if col_type == ColumnType.NUMERIC then listMaxQ? qs else none
           mean_value := if col_type == ColumnType.NUMERIC then listMeanQ? qs else none
           std_value := if col_type == ColumnType.NUMERIC then listStdQ? qs else none
           top_categories :=
             if col_type == ColumnType.CATEGORICAL then valueCountsTop10 c.vals else none }

/-- The degraded profile `analyze` builds when `_analyze_column` raises:
unknown type, zero percentage, zero unique count, no samples, no stats. -/
def fallbackProfile (c : DFColumn) : ColumnProfile :=
  { name := c.name
    dtype := dtypeStr c.dtype
    column_type := ColumnType.UNKNOWN
    null_count := nullCountOf c.vals
    null_percentage := 0
    unique_count := 0
    sample_values := [] }

/-- `ChartType` from src/core/models.py. -/
inductive ChartType where
  | LINE | SCATTER | BAR | HISTOGRAM | BOX | VIOLIN | HEATMAP | AREA | PIE | BUBBLE
  | FUNNEL | TREEMAP | SUNBURST | RADAR | PARALLEL_COORDS | CANDLESTICK | WATERFALL
  | POLAR | CONTOUR | DENSITY
deriving Repr, DecidableEq

/-- `ChartType(...).value`. -/
def chartTypeValue : ChartType → String
  | .LINE => "line"
  | .SCATTER => "scatter"
  | .BAR => "bar"
  | .HISTOGRAM => "histogram"
  | .BOX => "box"
  | .VIOLIN => "violin"
  | .HEATMAP => "heatmap"
  | .AREA => "area"
  | .PIE => "pie"
  | .BUBBLE => "bubble"
  | .FUNNEL => "funnel"
  | .TREEMAP => "treemap"
  | .SUNBURST => "sunburst"
  | .RADAR => "radar"
  | .PARALLEL_COORDS => "parallel_coords"
  | .CANDLESTICK => "candlestick"
  | .WATERFALL => "waterfall"
  | .POLAR => "polar"
  | .CONTOUR => "contour"
  | .DENSITY => "density"

/-- `ChartSuggestion` from src/core/models.py. -/
structure ChartSuggestion where
  chart_type : ChartType
  x_column : String
  y_columns : List String
  color_column : Option String := none
  reasoning : String
  score : Rat := 1
deriving Repr, DecidableEq

/-- Stable insertion for `list.sort(key=score, reverse=True)`: an element is
placed before the first strictly smaller score, so elements with equal scores
keep their original relative order (CPython's sort is stable, also with
`reverse=True`). -/
def insByScoreDesc (s : ChartSuggestion) : List ChartSuggestion → List ChartSuggestion
  | [] => [s]
  | t :: ts => if s.score ≥ t.score then s :: t :: ts else t :: insByScoreDesc s ts

def sortByScoreDesc : List ChartSuggestion → List ChartSuggestion
  | [] => []
  | s :: ss => insByScoreDesc s (sortByScoreDesc ss)

/-- The suggestion list `DataAnalyzer._suggest_charts` accumulates before its
final sort (the DataFrame argument is unused by the source; only the column
profiles matter). -/
def rawSuggestions (columns : List ColumnProfile) : List ChartSuggestion :=
  let numeric_cols := columns.filter (fun c => c.column_type == ColumnType.NUMERIC)
  let categorical_cols := columns.filter (fun c => c.column_type == ColumnType.CATEGORICAL)
  let temporal_cols := columns.filter (fun c => c.column_type == ColumnType.TEMPORAL)
  let lineSugg : List ChartSuggestion :=
    if !temporal_cols.isEmpty && !numeric_cols.isEmpty then
      (temporal_cols.take 1).flatMap (fun temp_col =>
        (numeric_cols.take 3).map (fun num_col =>
          { chart_type := ChartType.LINE
            x_column := temp_col.name
            y_columns := [num_col.name]
            reasoning := "Série temporelle: " ++ num_col.name ++ " en fonction du temps"
            score := mkRat 95 100 }))
    else []
  let scatterSugg : List ChartSuggestion :=
    match numeric_cols with
    | n0 :: n1 :: _ =>
      [{ chart_type := ChartType.SCATTER
         x_column := n0.name
         y_columns := [n1.name]
         color_column := (categorical_cols.head?).map (·.name)
         reasoning := "Corrélation entre " ++ n0.name ++ " et " ++ n1.name
         score := mkRat 9 10 }]
    | _ => []
  let barSugg : List ChartSuggestion :=
    match categorical_cols, numeric_cols with
    | cat_col :: _, num_col :: _ =>
      if cat_col.unique_count ≤ 15 then
        [{ chart_type := ChartType.BAR
           x_column := cat_col.name
           y_columns := [num_col.name]
           reasoning := "Comparaison de " ++ num_col.name ++ " par " ++ cat_col.name
           score := mkRat 85 100 }]
      else []
    | _, _ => []
  let histSugg : List ChartSuggestion :=
    (numeric_cols.take 2).map (fun num_col =>
      { chart_type := ChartType.HISTOGRAM
        x_column := num_col.name
        y_columns := []
        reasoning := "Distribution de " ++ num_col.name
        score := mkRat 7 10 })
  let boxSugg : List ChartSuggestion :=
    match categorical_cols, numeric_cols with
    | cat_col :: _, num_col :: _ =>
      [{ chart_type := ChartType.BOX
         x_column := cat_col.name
         y_columns := [num_col.name]
         reasoning := "Distribution de " ++ num_col.name ++ " par " ++ cat_col.name
         score := mkRat 75 100 }]
    | _, _ => []
  let heatSugg : List ChartSuggestion :=
    if numeric_cols.length ≥ 3 then
      [{ chart_type := ChartType.HEATMAP
         x_column := "__correlation__"
         y_columns := numeric_cols.map (·.name)
         reasoning := "Matrice de corrélation des variables numériques"
         score := mkRat 65 100 }]
    else []
  lineSugg ++ scatterSugg ++ barSugg ++ histSugg ++ boxSugg ++ heatSugg

/-- `DataAnalyzer._suggest_charts`: build the candidate list, then
`suggestions.sort(key=lambda x: x.score, reverse=True)`. -/
def suggestCharts (columns : List ColumnProfile) : List ChartSuggestion :=
  sortByScoreDesc (rawSuggestions columns)

/-- `DataProfile` from src/core/models.py. -/
structure DataProfile where
  row_count : Nat
  column_count : Nat
  columns : List ColumnProfile
  memory_usage_mb : Rat
  has_missing_values : Bool
  suggested_charts : List String := []
deriving Repr, DecidableEq

/-- `round(df.memory_usage(deep=True).sum() / (1024*1024), 2)`: the external
pandas memory metric, abstracted as 8 bytes per cell plus the 132-byte index
header; no claim depends on this field. -/
def memoryUsageMb (df : DataFrame) : Rat :=
  round2 (((df.cols.length * df.nRows * 8 + 132 : Nat) : Rat) / 1048576)

/-- The per-column step of `DataAnalyzer.analyze`, with its
`except Exception` fallback. -/
def analyzeOneColumn (df : DataFrame) (c : DFColumn) : ColumnProfile :=
  match analyzeColumnE df c with
  | .ok p => p
  | .error _ => fallbackProfile c

/-- `DataAnalyzer.analyze`. -/
def analyze (df : DataFrame) : DataProfile :=
  let columns := df.cols.map (analyzeOneColumn df)
  let suggestions := suggestCharts columns
  { row_count := df.nRows
    column_count := df.cols.length
    columns := columns
    memory_usage_mb := memoryUsageMb df
    has_missing_values := df.cols.any (fun c => c.vals.any (fun v => v == Val.null))
    suggested_charts := (suggestions.take 5).map (fun s => chartTypeValue s.chart_type) }

/-- `AxisConfig` from src/core/models.py. -/
structure AxisConfig where
  label : String := ""
  min_value : Option Rat := none
  max_value : Option Rat := none
  log_scale : Bool := false
  show_grid : Bool := true
  tick_format : Option String := none
  start_zero : Bool := false
deriving Repr, DecidableEq

/-- `GridConfig` from src/core/models.py (`show` is a Lean keyword, hence
the trailing underscore). -/
structure GridConfig where
  show_ : Bool := true
  color : String := "#CCCCCC"
  width : Rat := 1
  style : String := "solid"
  opacity : Rat := mkRat 1 2
  show_minor : Bool := false
  minor_color : String := "#EEEEEE"
  minor_width : Rat := mkRat 1 2
  minor_opacity : Rat := mkRat 3 10
deriving Repr, DecidableEq

/-- `LegendConfig` from src/core/models.py (`show` is a Lean keyword, hence
the trailing underscore). -/
structure LegendConfig where
  show_ : Bool := true
  position : String := "right"
  orientation : String := "vertical"
  title : Option String := none
  font_size : Int := 10
  background_alpha : Rat := mkRat 8 10
deriving Repr, DecidableEq

/-- `AnnotationType` from src/core/models.py. -/
inductive AnnotationType where
  | TEXT | ARROW | LINE | RECT | VLINE | HLINE
deriving Repr, DecidableEq

def annotationTypeValue : AnnotationType → String
  | .TEXT => "text"
  | .ARROW => "arrow"
  | .LINE => "line"
  | .RECT => "rect"
  | .VLINE => "vline"
  | .HLINE => "hline"

/-- `ArrowHeadStyle` from src/core/models.py. -/
inductive ArrowHeadStyle where
  | TRIANGLE | OPEN | NONE | CIRCLE | SQUARE | DIAMOND
deriving Repr, DecidableEq

def arrowHeadStyleValue : ArrowHeadStyle → String
  | .TRIANGLE => "triangle"
  | .OPEN => "open"
  | .NONE => "none"
  | .CIRCLE => "circle"
  | .SQUARE => "square"
  | .DIAMOND => "diamond"

/-- `AnnotationConfig` from src/core/models.py. -/
structure AnnotationConfig where
  type : AnnotationType := AnnotationType.TEXT
  text : String := ""
  x : Rat := mkRat 1 2
  y : Rat := mkRat 1 2
  x_end : Option Rat := none
  y_end : Option Rat := none
  font_size : Int := 12
  color : String := "#333333"
  arrow_head : Bool := true
  arrow_head_style : ArrowHeadStyle := ArrowHeadStyle.TRIANGLE
  line_width : Rat := 2
  use_data_coords : Bool := true
  opacity : Rat := 1
  background_color : Option String := none
  background_opacity : Rat := mkRat 3 10
  border_color : Option String := none
  border_width : Rat := 1
  fill_opacity : Rat := mkRat 1 5
deriving Repr, DecidableEq

/-- `RegressionType` from src/core/models.py. -/
inductive RegressionType where
  | LINEAR | POLYNOMIAL | EXPONENTIAL | LOGARITHMIC
deriving Repr, DecidableEq

def regressionTypeValue : RegressionType → String
  | .LINEAR => "linear"
  | .POLYNOMIAL => "polynomial"
  | .EXPONENTIAL => "exponential"
  | .LOGARITHMIC => "logarithmic"

/-- `RegressionConfig` from src/core/models.py. -/
structure RegressionConfig where
  enabled : Bool := false
  type : RegressionType := RegressionType.LINEAR
  degree : Int := 2
  show_equation : Bool := true
  show_r2 : Bool := true
  line_color : String := "#ff0000"
  line_width : Int := 2
  line_style : String := "dash"
deriving Repr, DecidableEq

/-- `ChartConfig` from src/core/models.py, with the fields in the source's
declaration order (the order `model_dump` serializes them in). -/
structure ChartConfig where
  chart_type : ChartType := ChartType.SCATTER
  x_column : Option String := none
  y_columns : List String := []
  color_column : Option String := none
  size_column : Option String := none
  facet_column : Option String := none
  y2_columns : List String := []
  y2_axis : AxisConfig := {}
  aggregation : Option String := none
  group_by : Option String := none
  title : String := "Figure"
  subtitle : Option String := none
  x_axis : AxisConfig := {}
  y_axis : AxisConfig := {}
  legend : LegendConfig := {}
  grid : GridConfig := {}
  theme : String := "plotly_white"
  color_palette : Option (List String) := none
  marker_size : Rat := 8
  line_width : Rat := 2
  opacity : Rat := mkRat 8 10
  marker_style : String := "circle"
  line_style : String := "solid"
  show_values : Bool := false
  annotations : List AnnotationConfig := []
  regression : RegressionConfig := {}
deriving Repr, DecidableEq

/-- A Python data tree as produced by `BaseModel.model_dump()` (mode
"python"): plain scalars, lists and string-keyed dicts, except that enum
fields come out as the enum members themselves (`penum cls value`, a
`(str, Enum)` instance), not as their value strings. -/
inductive PyObj where
  | pstr (s : String)
  | pint (n : Int)
  | pfloat (q : Rat)
  | pbool (b : Bool)
  | pnone
  | plist (xs : List PyObj)
  | pdict (kvs : List (String × PyObj))
  | penum (cls : String) (value : String)
deriving Repr

def dumpOptStr : Option String → PyObj
  | none => .pnone
  | some s => .pstr s

def dumpOptQ : Option Rat → PyObj
  | none => .pnone
  | some q => .pfloat q

def dumpStrList (l : List String) : PyObj := .plist (l.map .pstr)

def dumpOptStrList : Option (List String) → PyObj
  | none => .pnone
  | some l => dumpStrList l

/-- `AxisConfig.model_dump()`. -/
def AxisConfig.modelDump (a : AxisConfig) : PyObj :=
  .pdict [("label", .pstr a.label),
          ("min_value", dumpOptQ a.min_value),
          ("max_value", dumpOptQ a.max_value),
          ("log_scale", .pbool a.log_scale),
          ("show_grid", .pbool a.show_grid),
          ("tick_format", dumpOptStr a.tick_format),
          ("start_zero", .pbool a.start_zero)]

/-- `GridConfig.model_dump()`. -/
def GridConfig.modelDump (g : GridConfig) : PyObj :=
  .pdict [("show", .pbool g.show_),
          ("color", .pstr g.color),
          ("width", .pfloat g.width),
          ("style", .pstr g.style),
          ("opacity", .pfloat g.opacity),
          ("show_minor", .pbool g.show_minor),
          ("minor_color", .pstr g.minor_color),
          ("minor_width", .pfloat g.minor_width),
          ("minor_opacity", .pfloat g.minor_opacity)]

/-- `LegendConfig.model_dump()`. -/
def LegendConfig.modelDump (l : LegendConfig) : PyObj :=
  .pdict [("show", .pbool l.show_),
          ("position", .pstr l.position),
          ("orientation", .pstr l.orientation),
          ("title", dumpOptStr l.title),
          ("font_size", .pint l.font_size),
          ("background_alpha", .pfloat l.background_alpha)]

/-- `AnnotationConfig.model_dump()` (the `type` and `arrow_head_style`
fields are enum members). -/
def AnnotationConfig.modelDump (a : AnnotationConfig) : PyObj :=
  .pdict [("type", .penum "core.models.AnnotationType" (annotationTypeValue a.type)),
          ("text", .pstr a.text),
          ("x", .pfloat a.x),
          ("y", .pfloat a.y),
          ("x_end", dumpOptQ a.x_end),
          ("y_end", dumpOptQ a.y_end),
          ("font_size", .pint a.font_size),
          ("color", .pstr a.color),
          ("arrow_head", .pbool a.arrow_head),
          ("arrow_head_style", .penum "core.models.ArrowHeadStyle" (arrowHeadStyleValue a.arrow_head_style)),
          ("line_width", .pfloat a.line_width),
          ("use_data_coords", .pbool a.use_data_coords),
          ("opacity", .pfloat a.opacity),
          ("background_color", dumpOptStr a.background_color),
          ("background_opacity", .pfloat a.background_opacity),
          ("border_color", dumpOptStr a.border_color),
          ("border_width", .pfloat a.border_width),
          ("fill_opacity", .pfloat a.fill_opacity)]

/-- `RegressionConfig.model_dump()`. -/
def RegressionConfig.modelDump (r : RegressionConfig) : PyObj :=
  .pdict [("enabled", .pbool r.enabled),
          ("type", .penum "core.models.RegressionType" (regressionTypeValue r.type)),
          ("degree", .pint r.degree),
          ("show_equation", .pbool r.show_equation),
          ("show_r2", .pbool r.show_r2),
          ("line_color", .pstr r.line_color),
          ("line_width", .pint r.line_width),
          ("line_style", .pstr r.line_style)]

/-- `ChartConfig.model_dump()`: a dict in field-declaration order, nested
models dumped recursively, enum fields left as enum members. -/
def ChartConfig.modelDump (c : ChartConfig) : PyObj :=
  .pdict [("chart_type", .penum "core.models.ChartType" (chartTypeValue c.chart_type)),
          ("x_column", dumpOptStr c.x_column),
          ("y_columns", dumpStrList c.y_columns),
          ("color_column", dumpOptStr c.color_column),
          ("size_column", dumpOptStr c.size_column),
          ("facet_column", dumpOptStr c.facet_column),
          ("y2_columns", dumpStrList c.y2_columns),
          ("y2_axis", c.y2_axis.modelDump),
          ("aggregation", dumpOptStr c.aggregation),
          ("group_by", dumpOptStr c.group_by),
          ("title", .pstr c.title),
          ("subtitle", dumpOptStr c.subtitle),
          ("x_axis", c.x_axis.modelDump),
          ("y_axis", c.y_axis.modelDump),
          ("legend", c.legend.modelDump),
          ("grid", c.grid.modelDump),
          ("theme", .pstr c.theme),
          ("color_palette", dumpOptStrList c.color_palette),
          ("marker_size", .pfloat c.marker_size),
          ("line_width", .pfloat c.line_width),
          ("opacity", .pfloat c.opacity),
          ("marker_style", .pstr c.marker_style),
          ("line_style", .pstr c.line_style),
          ("show_values", .pbool c.show_values),
          ("annotations", .plist (c.annotations.map AnnotationConfig.modelDump)),
          ("regression", c.regression.modelDump)]

mutual
/-- `json.loads(json.dumps(tree))`: the JSON text transport.  `json.dumps`
serializes a `(str, Enum)` member through its `str` content, so enum members
come back as their plain value strings; everything else survives unchanged
(Python float text round-trips exactly). -/
def jsonDumpLoad : PyObj → PyObj
  | .pstr s => .pstr s
  | .pint n => .pint n
  | .pfloat q => .pfloat q
  | .pbool b => .pbool b
  | .pnone => .pnone
  | .penum _ v => .pstr v
  | .plist xs => .plist (jsonDumpLoadList xs)
  | .pdict kvs => .pdict (jsonDumpLoadKVs kvs)

def jsonDumpLoadList : List PyObj → List PyObj
  | [] => []
  | x :: xs => jsonDumpLoad x :: jsonDumpLoadList xs

def jsonDumpLoadKVs : List (String × PyObj) → List (String × PyObj)
  | [] => []
  | (k, v) :: kvs => (k, jsonDumpLoad v) :: jsonDumpLoadKVs kvs
end

/-- A YAML document node as `yaml.dump` builds it.  `ypyApply` is the
`!!python/object/apply:<cls>` node PyYAML's default `Dumper` emits for an
object it has no dedicated representer for (it falls back to
`represent_object`, which pickles an Enum member to its class and value). -/
inductive YNode where
  | ystr (s : String)
  | yint (n : Int)
  | yfloat (q : Rat)
  | ybool (b : Bool)
  | ynull
  | yseq (xs : List YNode)
  | ymap (kvs : List (String × YNode))
  | ypyApply (cls : String) (args : List YNode)
deriving Repr

mutual
/-- `yaml.dump` (default `Dumper`) on a `model_dump()` tree: plain scalars,
lists and dicts get their standard YAML representation; a `(str, Enum)`
member has no exact-type representer and is not matched by any
multi-representer before `object`, so `represent_object` emits a
`!!python/object/apply` node carrying its class and value. -/
def yamlDump : PyObj → YNode
  | .pstr s => .ystr s
  | .pint n => .yint n
  | .pfloat q => .yfloat q
  | .pbool b => .ybool b
  | .pnone => .ynull
  | .penum cls v => .ypyApply cls [.ystr v]
  | .plist xs => .yseq (yamlDumpList xs)
  | .pdict kvs => .ymap (yamlDumpKVs kvs)

def yamlDumpList : List PyObj → List YNode
  | [] => []
  | x :: xs => yamlDump x :: yamlDumpList xs

def yamlDumpKVs : List (String × PyObj) → List (String × YNode)
  | [] => []
  | (k, v) :: kvs => (k, yamlDump v) :: yamlDumpKVs kvs
end

mutual
/-- `yaml.safe_load`: reconstructs plain data, but the `SafeLoader` has no
constructor for `!!python/object/apply` tags and raises a ConstructorError
on them. -/
def yamlSafeLoad : YNode → Except String PyObj
  | .ystr s => .ok (.pstr s)
  | .yint n => .ok (.pint n)
  | .yfloat q => .ok (.pfloat q)
  | .ybool b => .ok (.pbool b)
  | .ynull => .ok .pnone
  | .yseq xs => do
    let ys ← yamlSafeLoadList xs
    .ok (.plist ys)
  | .ymap kvs => do
    let ys ← yamlSafeLoadKVs kvs
    .ok (.pdict ys)
  | .ypyApply cls _ =>
    .error ("could not determine a constructor for the tag tag:yaml.org,2002:python/object/apply:" ++ cls)

def yamlSafeLoadList : List YNode → Except String (List PyObj)
  | [] => .ok []
  | x :: xs => do
    let y ← yamlSafeLoad x
    let ys ← yamlSafeLoadList xs
    .ok (y :: ys)

def yamlSafeLoadKVs : List (String × YNode) → Except String (List (String × PyObj))
  | [] => .ok []
  | (k, v) :: kvs => do
    let y ← yamlSafeLoad v
    let ys ← yamlSafeLoadKVs kvs
    .ok ((k, y) :: ys)
end

def digitsVal (cs : List Char) : Nat := cs.foldl (fun a c => a * 10 + (c.toNat - 48)) 0

/-- Parse a plain decimal literal (optional sign, digits, optional fraction)
exactly, as a model of Python's text-to-float conversion. -/
def parseDecQ? (s : String) : Option Rat :=
  let cs := s.toList
  let signed : Int × List Char :=
    match cs with
    | '-' :: rest => (-1, rest)
    | '+' :: rest => (1, rest)
    | _ => (1, cs)
  let intPart := signed.2.takeWhile (fun c => c != '.')
  let rest := signed.2.dropWhile (fun c => c != '.')
  match rest with
  | [] =>
    if !intPart.isEmpty && intPart.all Char.isDigit then
      some ((signed.1 : Rat) * (digitsVal intPart : Rat))
    else none
  | '.' :: frac =>
    if (!intPart.isEmpty || !frac.isEmpty) && intPart.all Char.isDigit && frac.all Char.isDigit then
      some ((signed.1 : Rat) *
        ((digitsVal intPart : Rat) + (digitsVal frac : Rat) / ((10 : Rat) ^ frac.length)))
    else none
  | _ => none

/-- pydantic: field lookup with default — a missing key takes the field's
default, extra keys are ignored. -/
def getField? (kvs : List (String × PyObj)) (key : String) : Option PyObj :=
  (kvs.find? (fun kv => kv.1 == key)).map (·.2)

def vfield {α : Type} (kvs : List (String × PyObj)) (key : String) (dflt : α)
    (p : PyObj → Except String α) : Except String α :=
  match getField? kvs key with
  | none => .ok dflt
  | some v => p v

def parseStrE : PyObj → Except String String
  | .pstr s => .ok s
  | .penum _ v => .ok v
  | _ => .error "Input should be a valid string"

def parseOptStrE : PyObj → Except String (Option String)
  | .pnone => .ok none
  | v => (parseStrE v).map some

def parseBoolE : PyObj → Except String Bool
  | .pbool b => .ok b
  | .pint 0 => .ok false
  | .pint 1 => .ok true
  | _ => .error "Input should be a valid boolean"

def parseFloatE : PyObj → Except String Rat
  | .pfloat q => .ok q
  | .pint n => .ok (n : Rat)
  | .pstr s =>
    match parseDecQ? s with
    | some q => .ok q
    | none => .error "Input should be a valid number"
  | _ => .error "Input should be a valid number"

def parseOptFloatE : PyObj → Except String (Option Rat)
  | .pnone => .ok none
  | v => (parseFloatE v).map some

def parseIntE : PyObj → Except String Int
  | .pint n => .ok n
  | .pfloat q => if q.den == 1 then .ok q.num else .error "Input should be a valid integer"
  | .pstr s =>
    match s.toInt? with
    | some n => .ok n
    | none => .error "Input should be a valid integer"
  | _ => .error "Input should be a valid integer"

def parseStrListE : PyObj → Except String (List String)
  | .plist xs => xs.mapM parseStrE
  | _ => .error "Input should be a valid list"

def parseOptStrListE : PyObj → Except String (Option (List String))
  | .pnone => .ok none
  | v => (parseStrListE v).map some

def chartTypeFromString (s : String) : Except String ChartType :=
  if s == "line" then .ok .LINE
  else if s == "scatter" then .ok .SCATTER
  else if s == "bar" then .ok .BAR
  else if s == "histogram" then .ok .HISTOGRAM
  else if s == "box" then .ok .BOX
  else if s == "violin" then .ok .VIOLIN
  else if s == "heatmap" then .ok .HEATMAP
  else if s == "area" then .ok .AREA
  else if s == "pie" then .ok .PIE
  else if s == "bubble" then .ok .BUBBLE
  else if s == "funnel" then .ok .FUNNEL
  else if s == "treemap" then .ok .TREEMAP
  else if s == "sunburst" then .ok .SUNBURST
  else if s == "radar" then .ok .RADAR
  else if s == "parallel_coords" then .ok .PARALLEL_COORDS
  else if s == "candlestick" then .ok .CANDLESTICK
  else if s == "waterfall" then .ok .WATERFALL
  else if s == "polar" then .ok .POLAR
  else if s == "contour" then .ok .CONTOUR
  else if s == "density" then .ok .DENSITY
  else .error "Input should be a valid ChartType"

def annotationTypeFromString (s : String) : Except String AnnotationType :=
  if s == "text" then .ok .TEXT
  else if s == "arrow" then .ok .ARROW
  else if s == "line" then .ok .LINE
  else if s == "rect" then .ok .RECT
  else if s == "vline" then .ok .VLINE
  else if s == "hline" then .ok .HLINE
  else .error "Input should be a valid AnnotationType"

def arrowHeadStyleFromString (s : String) : Except String ArrowHeadStyle :=
  if s == "triangle" then .ok .TRIANGLE
  else if s == "open" then .ok .OPEN
  else if s == "none" then .ok .NONE
  else if s == "circle" then .ok .CIRCLE
  else if s == "square" then .ok .SQUARE
  else if s == "diamond" then .ok .DIAMOND
  else .error "Input should be a valid ArrowHeadStyle"

def regressionTypeFromString (s : String) : Except String RegressionType :=
  if s == "linear" then .ok .LINEAR
  else if s == "polynomial" then .ok .POLYNOMIAL
  else if s == "exponential" then .ok .EXPONENTIAL
  else if s == "logarithmic" then .ok .LOGARITHMIC
  else .error "Input should be a valid RegressionType"

def parseChartTypeE : PyObj → Except String ChartType
  | .pstr s => chartTypeFromString s
  | .penum _ v => chartTypeFromString v
  | _ => .error "Input should be a valid ChartType"

def parseAnnotationTypeE : PyObj → Except String AnnotationType
  | .pstr s => annotationTypeFromString s
  | .penum _ v => annotationTypeFromString v
  | _ => .error "Input should be a valid AnnotationType"

def parseArrowHeadStyleE : PyObj → Except String ArrowHeadStyle
  | .pstr s => arrowHeadStyleFromString s
  | .penum _ v => arrowHeadStyleFromString v
  | _ => .error "Input should be a valid ArrowHeadStyle"

def parseRegressionTypeE : PyObj → Except String RegressionType
  | .pstr s => regressionTypeFromString s
  | .penum _ v => regressionTypeFromString v
  | _ => .error "Input should be a valid RegressionType"

/-- pydantic validation of an `AxisConfig` from plain data. -/
def validateAxisConfig : PyObj → Except String AxisConfig
  | .pdict kvs => do
    let label ← vfield kvs "label" "" parseStrE
    let min_value ← vfield kvs "min_value" none parseOptFloatE
    let max_value ← vfield kvs "max_value" none parseOptFloatE
    let log_scale ← vfield kvs "log_scale" false parseBoolE
    let show_grid ← vfield kvs "show_grid" true parseBoolE
    let tick_format ← vfield kvs "tick_format" none parseOptStrE
    let start_zero ← vfield kvs "start_zero" false parseBoolE
    .ok { label, min_value, max_value, log_scale, show_grid, tick_format, start_zero }
  | _ => .error "Input should be a valid AxisConfig"

/-- pydantic validation of a `GridConfig` from plain data. -/
def validateGridConfig : PyObj → Except String GridConfig
  | .pdict kvs => do
    let show_ ← vfield kvs "show" true parseBoolE
    let color ← vfield kvs "color" "#CCCCCC" parseStrE
    let width ← vfield kvs "width" 1 parseFloatE
    let style ← vfield kvs "style" "solid" parseStrE
    let opacity ← vfield kvs "opacity" (mkRat 1 2) parseFloatE
    let show_minor ← vfield kvs "show_minor" false parseBoolE
    let minor_color ← vfield kvs "minor_color" "#EEEEEE" parseStrE
    let minor_width ← vfield kvs "minor_width" (mkRat 1 2) parseFloatE
    let minor_opacity ← vfield kvs "minor_opacity" (mkRat 3 10) parseFloatE
    .ok { show_, color, width, style, opacity, show_minor, minor_color, minor_width, minor_opacity }
  | _ => .error "Input should be a valid GridConfig"

/-- pydantic validation of a `LegendConfig` from plain data. -/
def validateLegendConfig : PyObj → Except String LegendConfig
  | .pdict kvs => do
    let show_ ← vfield kvs "show" true parseBoolE
    let position ← vfield kvs "position" "right" parseStrE
    let orientation ← vfield kvs "orientation" "vertical" parseStrE
    let title ← vfield kvs "title" none parseOptStrE
    let font_size ← vfield kvs "font_size" 10 parseIntE
    let background_alpha ← vfield kvs "background_alpha" (mkRat 8 10) parseFloatE
    .ok { show_, position, orientation, title, font_size, background_alpha }
  | _ => .error "Input should be a valid LegendConfig"

/-- pydantic validation of an `AnnotationConfig` from plain data. -/
def validateAnnotationConfig : PyObj → Except String AnnotationConfig
  | .pdict kvs => do
    let type ← vfield kvs "type" AnnotationType.TEXT parseAnnotationTypeE
    let text ← vfield kvs "text" "" parseStrE
    let x ← vfield kvs "x" (mkRat 1 2) parseFloatE
    let y ← vfield kvs "y" (mkRat 1 2) parseFloatE
    let x_end ← vfield kvs "x_end" none parseOptFloatE
    let y_end ← vfield kvs "y_end" none parseOptFloatE
    let font_size ← vfield kvs "font_size" 12 parseIntE
    let color ← vfield kvs "color" "#333333" parseStrE
    let arrow_head ← vfield kvs "arrow_head" true parseBoolE
    let arrow_head_style ← vfield kvs "arrow_head_style" ArrowHeadStyle.TRIANGLE parseArrowHeadStyleE
    let line_width ← vfield kvs "line_width" 2 parseFloatE
    let use_data_coords ← vfield kvs "use_data_coords" true parseBoolE
    let opacity ← vfield kvs "opacity" 1 parseFloatE
    let background_color ← vfield kvs "background_color" none parseOptStrE
    let background_opacity ← vfield kvs "background_opacity" (mkRat 3 10) parseFloatE
    let border_color ← vfield kvs "border_color" none parseOptStrE
    let border_width ← vfield kvs "border_width" 1 parseFloatE
    let fill_opacity ← vfield kvs "fill_opacity" (mkRat 1 5) parseFloatE
    .ok { type, text, x, y, x_end, y_end, font_size, color, arrow_head, arrow_head_style,
          line_width, use_data_coords, opacity, background_color, background_opacity,
          border_color, border_width, fill_opacity }
  | _ => .error "Input should be a valid AnnotationConfig"

/-- pydantic validation of a `RegressionConfig` from plain data. -/
def validateRegressionConfig : PyObj → Except String RegressionConfig
  | .pdict kvs => do
    let enabled ← vfield kvs "enabled" false parseBoolE
    let type ← vfield kvs "type" RegressionType.LINEAR parseRegressionTypeE
    let degree ← vfield kvs "degree" 2 parseIntE
    let show_equation ← vfield kvs "show_equation" true parseBoolE
    let show_r2 ← vfield kvs "show_r2" true parseBoolE
    let line_color ← vfield kvs "line_color" "#ff0000" parseStrE
    let line_width ← vfield kvs "line_width" 2 parseIntE
    let line_style ← vfield kvs "line_style" "dash" parseStrE
    .ok { enabled, type, degree, show_equation, show_r2, line_color, line_width, line_style }
  | _ => .error "Input should be a valid RegressionConfig"

def parseAnnotationListE : PyObj → Except String (List AnnotationConfig)
  | .plist xs => xs.mapM validateAnnotationConfig
  | _ => .error "Input should be a valid list"

/-- pydantic validation of a `ChartConfig` from plain data
(`ChartConfig(**data)`): every field either present and validated or filled
with its declared default; unknown keys are ignored. -/
def validateChartConfig : PyObj → Except String ChartConfig
  | .pdict kvs => do
    let chart_type ← vfield kvs "chart_type" ChartType.SCATTER parseChartTypeE
    let x_column ← vfield kvs "x_column" none parseOptStrE
    let y_columns ← vfield kvs "y_columns" [] parseStrListE
    let color_column ← vfield kvs "color_column" none parseOptStrE
    let size_column ← vfield kvs "size_column" none parseOptStrE
    let facet_column ← vfield kvs "facet_column" none parseOptStrE
    let y2_columns ← vfield kvs "y2_columns" [] parseStrListE
    let y2_axis ← vfield kvs "y2_axis" {} validateAxisConfig
    let aggregation ← vfield kvs "aggregation" none parseOptStrE
    let group_by ← vfield kvs "group_by" none parseOptStrE
    let title ← vfield kvs "title" "Figure" parseStrE
    let subtitle ← vfield kvs "subtitle" none parseOptStrE
    let x_axis ← vfield kvs "x_axis" {} validateAxisConfig
    let y_axis ← vfield kvs "y_axis" {} validateAxisConfig
    let legend ← vfield kvs "legend" {} validateLegendConfig
    let grid ← vfield kvs "grid" {} validateGridConfig
    let theme ← vfield kvs "theme" "plotly_white" parseStrE
    let color_palette ← vfield kvs "color_palette" none parseOptStrListE
    let marker_size ← vfield kvs "marker_size" 8 parseFloatE
    let line_width ← vfield kvs "line_width" 2 parseFloatE
    let opacity ← vfield kvs "opacity" (mkRat 8 10) parseFloatE
    let marker_style ← vfield kvs "marker_style" "circle" parseStrE
    let line_style ← vfield kvs "line_style" "solid" parseStrE
    let show_values ← vfield kvs "show_values" false parseBoolE
    let annotations ← vfield kvs "annotations" [] parseAnnotationListE
    let regression ← vfield kvs "regression" {} validateRegressionConfig
    .ok { chart_type, x_column, y_columns, color_column, size_column, facet_column,
          y2_columns, y2_axis, aggregation, group_by, title, subtitle, x_axis, y_axis,
          legend, grid, theme, color_palette, marker_size, line_width, opacity,
          marker_style, line_style, show_values, annotations, regression }
  | _ => .error "Input should be a valid ChartConfig"

/-- `ChartConfig.to_json` modelled at the data level: `model_dump` followed by
the JSON text transport (`json.dumps`/`json.loads`, which is lossless on
these trees and turns enum members into their value strings). -/
def ChartConfig.to_json_data (c : ChartConfig) : PyObj := jsonDumpLoad c.modelDump

/-- `ChartConfig.from_json` modelled at the data level:
`cls(**json.loads(json_str))`. -/
def ChartConfig.from_json_data (d : PyObj) : Except String ChartConfig :=
  validateChartConfig d

/-- `ChartConfig.to_yaml` modelled at the node level: `yaml.dump(model_dump())`
before text emission. -/
def ChartConfig.to_yaml_node (c : ChartConfig) : YNode := yamlDump c.modelDump

/-- `ChartConfig.from_yaml` modelled at the node level:
`cls(**yaml.safe_load(yaml_str))`; `safe_load` raises on python-specific tags. -/
def ChartConfig.from_yaml_node (y : YNode) : Except String ChartConfig := do
  validateChartConfig (← yamlSafeLoad y)

/-- `template_manager.load_template` on a file that `save_template` wrote for
`saved` (the file holds `saved.to_json()`): the configuration is parsed back
verbatim; no column filtering against any table happens on this path, and the
caller (src/app.py) assigns the result to the session configuration
unchanged. -/
def load_template_model (saved : ChartConfig) : Except String ChartConfig :=
  ChartConfig.from_json_data (ChartConfig.to_json_data saved)

/-! ## Visualization engine (src/viz/viz_engine.py, Plotly path)

Plotly itself is external: each library call is recorded as a constructor
carrying the arguments the engine hands over, after reproducing the
library's argument validation (a named column that is absent raises). -/

/-- Python truthiness of an optional string (None and the empty string are
falsy). -/
def optTruthy : Option String → Bool
  | none => false
  | some s => !(s == "")

/-- Python truthiness of a string. -/
def strTruthy (s : String) : Bool := !(s == "")

/-- Python truthiness of an optional float (None and 0.0 are falsy). -/
def qTruthy : Option Rat → Bool
  | none => false
  | some q => !(q == 0)

/-- `df[name]` raising KeyError when the column is absent. -/
def getColE (df : DataFrame) (name : String) : Except PyExc DFColumn :=
  match df.getCol? name with
  | some c => .ok c
  | none => .error (.keyError name)

/-- A named-column argument handed to a plotly-express call: None is passed
through, a name that is not a column of the data frame raises ValueError. -/
def getOptColE (df : DataFrame) : Option String → Except PyExc (Option DFColumn)
  | none => .ok none
  | some name =>
    match df.getCol? name with
    | some c => .ok (some c)
    | none => .error (.valueError ("Value of argument is not the name of a column in data_frame: " ++ name))

/-- `COLOR_PALETTES["default"]` from src/viz/themes.py. -/
def defaultPalette : List String :=
  ["#636EFA", "#EF553B", "#00CC96", "#AB63FA", "#FFA15A", "#19D3F3", "#FF6692", "#B6E880"]

/-- `config.color_palette or get_color_palette("default")` (an empty list is
falsy). -/
def paletteOf (config : ChartConfig) : List String :=
  match config.color_palette with
  | some l => if l.isEmpty then defaultPalette else l
  | none => defaultPalette

/-- `lst[i % len(lst)]` (all uses have a non-empty list). -/
def cycleGet (l : List String) (i : Nat) : String := l.getD (i % l.length) ""

/-- The symbol cycle used for multi-series line/area charts. -/
def symbolList : List String :=
  ["circle", "square", "diamond", "triangle-up", "triangle-down", "star", "cross", "x"]

/-- One `go.Scatter`/`go.Scatterpolar` trace as the engine constructs it. -/
structure PTrace where
  xs : List Val := []
  ys : List Val := []
  mode : String := ""
  name : String := ""
  fill : Option String := none
  dash : Option String := none
  lineColor : Option String := none
  lineWidth : Rat := 0
  markerSize : Option Rat := none
  symbol : Option String := none
  opacity : Option Rat := none
  secondary : Option Bool := none
  thetas : List String := []
deriving Repr, DecidableEq

/-- Per-figure layout/trace updates the creators perform right after the
library call. -/
inductive AxisOp where
  | yTitleText (secondary : Bool) (t : String)
  | yRangeModeToZero (secondary : Bool)
  | markerSizeAll (q : Rat)
  | imshowTextOverlay
  | contoursColoringFill
  | polarRadialVisible
deriving Repr, DecidableEq

/-- The base figure returned by the per-chart-type creation routine: each
constructor records one plotly call and the arguments the engine passed. -/
inductive BaseFig where
  | goTracesFig (dual : Bool) (traces : List PTrace)
  | pxLine (x y color : Option DFColumn)
  | pxScatter (x y color size : Option DFColumn) (opacity : Rat)
  | pxBar (data : DataFrame) (x y color : Option DFColumn) (opacity : Rat)
  | pxHistogram (x color : Option DFColumn) (opacity : Rat) (nbins : Nat)
  | pxBox (x y color : Option DFColumn)
  | pxViolin (x y color : Option DFColumn) (box : Bool)
  | pxImshowCorr (cols : List DFColumn)
  | pxDensityHeatmap (x y : Option DFColumn)
  | pxPie (names values : Option DFColumn)
  | pxFunnel (x y color : Option DFColumn)
  | pxTreemap (path : List DFColumn) (values color : Option DFColumn)
  | pxSunburst (path : List DFColumn) (values color : Option DFColumn)
  | radarFig (traces : List PTrace)
  | pxParallel (dims : List String) (color : Option String)
  | goCandlestick (x : List Val) (o h l c : DFColumn)
  | goWaterfall (x : List Val) (y : List Val) (measures : List String)
  | pxBarPolar (r theta color : Option DFColumn)
  | pxDensityContour (x y color : Option DFColumn)
  | pxDensityHeatmapMarginal (x y : Option DFColumn)
deriving Repr, DecidableEq

/-- An annotation/shape primitive added to the figure (one per successfully
processed `AnnotationConfig`). -/
inductive AnnPrim where
  | textLabel (x y : Rat) (text : String) (fontSize : Int) (color : String)
      (dataCoords : Bool) (bgcolor : Option (Nat × Nat × Nat × Rat)) (opacity : Rat)
      (borderColor : Option String) (borderWidth : Rat)
  | arrowAnn (x y ax ay : Rat) (text : String) (head : Nat) (width : Rat)
      (color : String) (fontSize : Int) (dataCoords : Bool)
  | vlineMark (x : Rat) (color : String) (text : Option String)
  | hlineMark (y : Rat) (color : String) (text : Option String)
  | rectShape (x0 y0 x1 y1 : Rat) (color : String) (width : Rat)
      (fill : Nat × Nat × Nat × Rat) (opacity : Rat)
  | lineShape (x0 y0 x1 y1 : Rat) (color : String) (width : Rat)
deriving Repr, DecidableEq

/-- A resolved legend anchor position. -/
structure PosSpec where
  x : Rat
  y : Rat
  xanchor : String
  yanchor : String
deriving Repr, DecidableEq

/-- The result of `_apply_common_styling`'s layout updates. -/
structure StyleRec where
  themeKey : String
  title : String
  subtitle : Option String := none
  xLabel : Option String := none
  yLabel : Option String := none
  xLog : Bool := false
  yLog : Bool := false
  xRange : Option (Option Rat × Option Rat) := none
  yRange : Option (Option Rat × Option Rat) := none
  yToZero : Bool := false
  xShowGrid : Bool := true
  yShowGrid : Bool := true
  gridColor : String := ""
  gridWidth : Rat := 0
  gridDash : Option String := none
  legendSpec : Option (String × PosSpec × Rat × Int) := none
  hoverMode : String := "x unified"
  markerSymbolApplied : Option String := none
  lineDashApplied : String := "solid"
deriving Repr, DecidableEq

/-- A figure: the base library call plus everything added afterwards. -/
structure Figure where
  base : BaseFig
  preOps : List AxisOp := []
  traces : List PTrace := []
  annots : List AnnPrim := []
  styling : Option StyleRec := none
deriving Repr, DecidableEq

/-! ### Regression helpers (`_add_regression_line`) -/

/-- `np.issubdtype(dtype, np.number)` (bool is not an np.number). -/
def npIsNumberDtype : Dtype → Bool
  | .int64 => true
  | .float64 => true
  | _ => false

/-- `pd.to_numeric(value, errors='coerce')` on one element: numbers pass
through, numeric strings are parsed, datetimes become their integer value,
everything else coerces to NaN (none). -/
def pyToNumeric : Val → Option Rat
  | .null => none
  | .vBool b => some (if b then 1 else 0)
  | .vInt n => some (n : Rat)
  | .vFloat q => some q
  | .vStr s => parseDecQ? s
  | .vDate t => some (t : Rat)
  | _ => none

/-- The x data fed to the fit: `np.arange(len(x))` for a non-numeric dtype,
the raw values (with NaN for nulls) otherwise. -/
def xNumericList (c : DFColumn) : List (Option Rat) :=
  if npIsNumberDtype c.dtype then c.vals.map toQ?
  else (List.range c.vals.length).map (fun i => some (i : Rat))

/-- Paired values surviving the NaN mask
`~(np.isnan(x_numeric) | np.isnan(y_numeric))`. -/
def cleanedPairs (xc yc : DFColumn) : List (Rat × Rat) :=
  ((xNumericList xc).zip (yc.vals.map pyToNumeric)).filterMap
    (fun p =>
      match p with
      | (some a, some b) => some (a, b)
      | _ => none)

/-- `np.poly1d(coeffs)(x)` with coefficients highest power first (Horner). -/
def polyval (coeffs : List Rat) (x : Rat) : Rat :=
  coeffs.foldl (fun acc c => acc * x + c) 0

def vanderRow (x : Rat) (deg : Nat) : List Rat :=
  (List.range (deg + 1)).map (fun i => x ^ (deg - i))

def dotQ (a b : List Rat) : Rat := ((a.zip b).map (fun p => p.1 * p.2)).sum

/-- The normal-equation matrix transpose(V)·V of the Vandermonde rows. -/
def normalMat (rows : List (List Rat)) (n : Nat) : List (List Rat) :=
  (List.range n).map (fun i => (List.range n).map (fun j =>
    (rows.map (fun r => r.getD i 0 * r.getD j 0)).sum))

/-- The normal-equation right-hand side transpose(V)·y. -/
def normalVec (rows : List (List Rat)) (ys : List Rat) (n : Nat) : List Rat :=
  (List.range n).map (fun i => ((rows.zip ys).map (fun p => p.1.getD i 0 * p.2)).sum)

def findPivot : List (List Rat) → Option (List Rat × List (List Rat))
  | [] => none
  | r :: rs =>
    if r.getD 0 0 != 0 then some (r, rs)
    else
      match findPivot rs with
      | some (p, rest) => some (p, r :: rest)
      | none => none

def elimStep (p : List Rat) (r : List Rat) : List Rat :=
  (List.zipWith (fun a b => a - (r.getD 0 0 / p.getD 0 0) * b) r p).drop 1

/-- Gaussian elimination on an augmented system, `k` variables left;
`none` when the system is singular. -/
def gaussFuel : Nat → List (List Rat) → Option (List Rat)
  | 0, _ => some []
  | Nat.succ k, rows => do
    let (p, rest) ← findPivot rows
    let sol ← gaussFuel k (rest.map (elimStep p))
    let a := p.getD 0 0
    let c := (p.drop 1).take k
    let rhs := p.getD (k + 1) 0
    some ((rhs - dotQ c sol) / a :: sol)

def gaussSolve (a : List (List Rat)) (b : List Rat) : Option (List Rat) :=
  gaussFuel a.length ((a.zip b).map (fun p => p.1 ++ [p.2]))

/-- `np.polyfit(x, y, deg)`: the least-squares polynomial via the normal
equations, exact over the rationals.  `none` models the degenerate
(singular) systems, which no claim depends on. -/
def polyfitQ (pairs : List (Rat × Rat)) (deg : Nat) : Option (List Rat) :=
  let rows := pairs.map (fun p => vanderRow p.1 deg)
  gaussSolve (normalMat rows (deg + 1)) (normalVec rows (pairs.map (·.2)) (deg + 1))

/-- `"%.4f"`-style formatting, abstracted: the value rounded to four decimal
places printed by `toString` (the exact float text is a library detail no
claim inspects). -/
def fmt4 (q : Rat) : String := toString ((roundHalfEven (q * 10000) : Rat) / 10000)

/-- `np.linspace(a, b, 100)`. -/
def linspace100 (a b : Rat) : List Rat :=
  (List.range 100).map (fun i => a + (b - a) * (i : Rat) / 99)

/-- The body of `VizEngine._add_regression_line` (the part inside its
`try`).  Looked-up columns, negative degrees and singular fits surface on the
error channel; the wrapper below turns any error into "return the figure
unchanged". -/
def addRegressionLineE (df : DataFrame) (fig : Figure) (config : ChartConfig) :
    Except PyExc Figure := do
  let xc ← match config.x_column with
    | some c => getColE df c
    | none => .error (.keyError "None")
  match config.y_columns.head? with
  | none => .ok fig
  | some y_col => do
    let yc ← getColE df y_col
    let pairs := cleanedPairs xc yc
    if pairs.length < 2 then
      .ok fig
    else do
      let fit ←
        if config.regression.type == RegressionType.LINEAR then
          match polyfitQ pairs 1 with
          | some cs =>
            pure (cs, "y = " ++ fmt4 (cs.getD 0 0) ++ "x + " ++ fmt4 (cs.getD 1 0))
          | none => Except.error (.otherError "polyfit failed")
        else
          -- every non-LINEAR type takes the polynomial branch in the source
          if config.regression.degree < 0 then
            Except.error (.valueError "expected deg greater or equal 0")
          else
            let deg := config.regression.degree.toNat
            match polyfitQ pairs deg with
            | some cs =>
              let terms := (List.range (cs.length - 1)).map
                (fun i => fmt4 (cs.getD i 0) ++ "x^" ++ toString (deg - i))
              pure (cs, "y = " ++ String.intercalate " + " (terms ++ [fmt4 (cs.getD (cs.length - 1) 0)]))
            | none => Except.error (.otherError "polyfit failed")
      let coeffs := fit.1
      let xs := pairs.map (·.1)
      let ysClean := pairs.map (·.2)
      let y_pred := xs.map (polyval coeffs)
      let ss_res := ((ysClean.zip y_pred).map (fun p => (p.1 - p.2) ^ 2)).sum
      let mean_y := ysClean.sum / (ysClean.length : Rat)
      let ss_tot := (ysClean.map (fun v => (v - mean_y) ^ 2)).sum
      let r2 := if ss_tot != 0 then 1 - ss_res / ss_tot else 0
      let x_line := linspace100 ((xs.min?).getD 0) ((xs.max?).getD 0)
      let y_line := x_line.map (polyval coeffs)
      let label_parts := ["Tendance"]
        ++ (if config.regression.show_equation then [fit.2] else [])
        ++ (if config.regression.show_r2 then ["R² = " ++ fmt4 r2] else [])
      let dash := if ["solid", "dash", "dot"].contains config.regression.line_style then
          config.regression.line_style else "dash"
      let trace : PTrace :=
        { xs := if npIsNumberDtype xc.dtype then x_line.map Val.vFloat else xc.vals.take 100
          ys := y_line.map Val.vFloat
          mode := "lines"
          name := String.intercalate "<br>" label_parts
          dash := some dash
          lineColor := some config.regression.line_color
          lineWidth := (config.regression.line_width : Rat) }
      .ok { fig with traces := fig.traces ++ [trace] }

/-- `VizEngine._add_regression_line`: the whole body sits in
`try ... except Exception: pass`, so any failure returns the figure
unchanged. -/
def addRegressionLine (df : DataFrame) (fig : Figure) (config : ChartConfig) : Figure :=
  match addRegressionLineE df fig config with
  | .ok f => f
  | .error _ => fig

/-! ### Annotations (`_add_annotations`) -/

def hexDigitVal? (c : Char) : Option Nat :=
  if c.isDigit then some (c.toNat - 48)
  else if 'a' ≤ c && c ≤ 'f' then some (c.toNat - 87)
  else if 'A' ≤ c && c ≤ 'F' then some (c.toNat - 55)
  else none

/-- `int(s, 16)`: raises ValueError on an empty or non-hex string. -/
def hexByteE (cs : List Char) : Except PyExc Nat :=
  if cs.isEmpty then .error (.valueError "invalid literal for int with base 16")
  else
    cs.foldlM
      (fun acc c =>
        match hexDigitVal? c with
        | some v => .ok (acc * 16 + v)
        | none => .error (.valueError "invalid literal for int with base 16"))
      0

/-- `tuple(int(hex[i:i+2], 16) for i in (0, 2, 4))` after `lstrip('#')`. -/
def hexToRgbE (s : String) : Except PyExc (Nat × Nat × Nat) := do
  let cs := s.toList.dropWhile (fun c => c == '#')
  let r ← hexByteE (cs.take 2)
  let g ← hexByteE ((cs.drop 2).take 2)
  let b ← hexByteE ((cs.drop 4).take 2)
  .ok (r, g, b)

/-- `ArrowHeadStyle` → plotly arrowhead number. -/
def arrowHeadNum : ArrowHeadStyle → Nat
  | .TRIANGLE => 2
  | .OPEN => 1
  | .NONE => 0
  | .CIRCLE => 4
  | .SQUARE => 3
  | .DIAMOND => 5

/-- The body of one iteration of the `_add_annotations` loop (inside its
per-item `try`). -/
def processAnn (a : AnnotationConfig) : Except PyExc AnnPrim := do
  match a.type with
  | .TEXT => do
    let bgcolor ←
      if optTruthy a.background_color then do
        let rgb ← hexToRgbE (a.background_color.getD "")
        pure (some (rgb.1, rgb.2.1, rgb.2.2, a.background_opacity))
      else pure none
    .ok (.textLabel a.x a.y a.text a.font_size a.color a.use_data_coords bgcolor a.opacity
      (if optTruthy a.border_color then a.border_color else none) a.border_width)
  | .ARROW =>
    .ok (.arrowAnn a.x a.y (a.x_end.getD (a.x - 20)) (a.y_end.getD (a.y - 20)) a.text
      (arrowHeadNum a.arrow_head_style) a.line_width a.color a.font_size a.use_data_coords)
  | .VLINE =>
    .ok (.vlineMark a.x a.color (if strTruthy a.text then some a.text else none))
  | .HLINE =>
    .ok (.hlineMark a.y a.color (if strTruthy a.text then some a.text else none))
  | .RECT => do
    let rgb ← hexToRgbE a.color
    .ok (.rectShape a.x a.y
      (if qTruthy a.x_end then a.x_end.getD 0 else a.x + 1)
      (if qTruthy a.y_end then a.y_end.getD 0 else a.y + 1)
      a.color a.line_width (rgb.1, rgb.2.1, rgb.2.2, a.fill_opacity) a.opacity)
  | .LINE =>
    .ok (.lineShape a.x a.y
      (if qTruthy a.x_end then a.x_end.getD 0 else a.x + 1)
      (if qTruthy a.y_end then a.y_end.getD 0 else a.y)
      a.color 2)

/-- `VizEngine._add_annotations`: each annotation is processed inside its own
`try/except: pass`, so a failing annotation is skipped and the rest still
land on the figure. -/
def addAnns (fig : Figure) (config : ChartConfig) : Figure :=
  { fig with
    annots := fig.annots ++ config.annotations.foldl
      (fun acc a =>
        match processAnn a with
        | .ok p => acc ++ [p]
        | .error _ => acc) [] }

/-! ### Per-chart-type creation routines -/

/-- `VizEngine._create_line_chart`. -/
def createLineChart (df : DataFrame) (config : ChartConfig) : Except PyExc Figure := do
  let colors := paletteOf config
  if !config.y2_columns.isEmpty then do
    let xvals ←
      if optTruthy config.x_column then (getColE df (config.x_column.getD "")).map (·.vals)
      else pure df.indexVals
    let prim ← config.y_columns.enum.mapM (fun p => do
      let yc ← getColE df p.2
      pure ({ xs := xvals, ys := yc.vals, mode := "lines+markers",
              name := p.2 ++ " (gauche)",
              lineColor := some (cycleGet colors p.1), lineWidth := config.line_width,
              markerSize := some config.marker_size,
              symbol := some (cycleGet symbolList p.1),
              secondary := some false } : PTrace))
    let sec ← config.y2_columns.enum.mapM (fun p => do
      let yc ← getColE df p.2
      pure ({ xs := xvals, ys := yc.vals, mode := "lines+markers",
              name := p.2 ++ " (droite)",
              lineColor := some (cycleGet colors (config.y_columns.length + p.1)),
              dash := some "dash", lineWidth := config.line_width,
              markerSize := some config.marker_size,
              symbol := some (cycleGet symbolList (config.y_columns.length + p.1)),
              secondary := some true } : PTrace))
    let ops :=
      (if strTruthy config.y_axis.label then [AxisOp.yTitleText false config.y_axis.label] else [])
      ++ (if strTruthy config.y2_axis.label then [AxisOp.yTitleText true config.y2_axis.label] else [])
      ++ (if config.y_axis.start_zero then [AxisOp.yRangeModeToZero false] else [])
      ++ (if config.y2_axis.start_zero then [AxisOp.yRangeModeToZero true] else [])
    .ok { base := .goTracesFig true (prim ++ sec), preOps := ops }
  else if !config.y_columns.isEmpty then do
    let xvals ←
      if optTruthy config.x_column then (getColE df (config.x_column.getD "")).map (·.vals)
      else pure df.indexVals
    let traces ← config.y_columns.enum.mapM (fun p => do
      let yc ← getColE df p.2
      pure ({ xs := xvals, ys := yc.vals, mode := "lines+markers", name := p.2,
              lineColor := some (cycleGet colors p.1), lineWidth := config.line_width,
              markerSize := some config.marker_size,
              symbol := some (cycleGet symbolList p.1) } : PTrace))
    .ok { base := .goTracesFig false traces }
  else do
    let x ← getOptColE df config.x_column
    let color ← getOptColE df config.color_column
    .ok { base := .pxLine x none color }

/-- `VizEngine._create_scatter_chart`. -/
def createScatterChart (df : DataFrame) (config : ChartConfig) : Except PyExc Figure := do
  let x ← getOptColE df config.x_column
  let y ← getOptColE df config.y_columns.head?
  let color ← getOptColE df config.color_column
  let size ← getOptColE df config.size_column
  .ok { base := .pxScatter x y color size config.opacity
        preOps := [.markerSizeAll config.marker_size] }

/-- The aggregation names the model supports for `df.groupby(x).agg(...)`.
Other method names are treated as unsupported and raise; no claim depends on
the exact set. -/
def validAggNames : List String :=
  ["mean", "sum", "count", "min", "max", "median", "first", "last"]

def insQAsc (q : Rat) : List Rat → List Rat
  | [] => [q]
  | r :: rs => if q ≤ r then q :: r :: rs else r :: insQAsc q rs

def sortQAsc : List Rat → List Rat
  | [] => []
  | q :: qs => insQAsc q (sortQAsc qs)

def medianQ (qs : List Rat) : Rat :=
  let s := sortQAsc qs
  let n := s.length
  if n % 2 == 1 then s.getD (n / 2) 0
  else (s.getD (n / 2 - 1) 0 + s.getD (n / 2) 0) / 2

/-- One aggregated cell: the pandas aggregation applied to a group's values
(non-numeric values make the numeric aggregations raise). -/
def pyAggOp (agg : String) (vs : List Val) : Except PyExc Val :=
  if agg == "count" then .ok (.vInt (nonNull vs).length)
  else if agg == "first" then .ok ((nonNull vs).headD .null)
  else if agg == "last" then .ok ((nonNull vs).getLastD .null)
  else
    if (nonNull vs).all (fun v => (toQ? v).isSome) then
      let qs := numericVals vs
      if agg == "sum" then .ok (.vFloat qs.sum)
      else if qs.isEmpty then .ok .null
      else if agg == "mean" then .ok (.vFloat (qs.sum / (qs.length : Rat)))
      else if agg == "min" then .ok (.vFloat ((qs.min?).getD 0))
      else if agg == "max" then .ok (.vFloat ((qs.max?).getD 0))
      else .ok (.vFloat (medianQ qs))
    else .error (.typeError "could not aggregate non-numeric values")

def distinctKeysInOrder (vs : List Val) : List Val :=
  vs.foldl (fun acc v => if acc.any (fun w => pyEqVal w v) then acc else acc ++ [v]) []

/-- `df.groupby(x).agg(dict with y_col mapped to agg).reset_index()`:
raises KeyError when `x` or the y column is absent (also when the y column is
None) and AttributeError for an unknown aggregation name.  The result holds
the group keys (null keys dropped; the external library's key ordering is
abstracted as first-appearance order) and one aggregated value per key. -/
def groupbyAgg (df : DataFrame) (x : String) (y? : Option String) (agg : String) :
    Except PyExc DataFrame := do
  let xc ← getColE df x
  let yName ← match y? with
    | none => .error (.keyError "None")
    | some y => pure y
  let yc ← getColE df yName
  if !(validAggNames.contains agg) then
    .error (.attributeError agg)
  else do
    let keys := distinctKeysInOrder (nonNull xc.vals)
    let aggVals ← keys.mapM (fun k =>
      pyAggOp agg ((xc.vals.zip yc.vals).filterMap
        (fun p => if pyEqVal p.1 k then some p.2 else none)))
    .ok ⟨[⟨x, xc.dtype, keys⟩, ⟨yName, .float64, aggVals⟩]⟩

/-- `VizEngine._create_bar_chart`. -/
def createBarChart (df : DataFrame) (config : ChartConfig) : Except PyExc Figure := do
  let y_col := config.y_columns.head?
  if optTruthy config.aggregation && optTruthy config.x_column then do
    let agg_df ← groupbyAgg df (config.x_column.getD "") y_col (config.aggregation.getD "")
    let x ← getOptColE agg_df config.x_column
    let y ← getOptColE agg_df y_col
    let color ← getOptColE agg_df config.color_column
    .ok { base := .pxBar agg_df x y color config.opacity }
  else do
    let x ← getOptColE df config.x_column
    let y ← getOptColE df y_col
    let color ← getOptColE df config.color_column
    .ok { base := .pxBar df x y color config.opacity }

/-- `VizEngine._create_histogram`. -/
def createHistogram (df : DataFrame) (config : ChartConfig) : Except PyExc Figure := do
  let x ← getOptColE df config.x_column
  let color ← getOptColE df config.color_column
  .ok { base := .pxHistogram x color config.opacity 30 }

/-- `VizEngine._create_box_chart`. -/
def createBoxChart (df : DataFrame) (config : ChartConfig) : Except PyExc Figure := do
  let x ← getOptColE df config.x_column
  let y ← getOptColE df config.y_columns.head?
  let color ← getOptColE df config.color_column
  .ok { base := .pxBox x y color }

/-- `VizEngine._create_violin_chart`. -/
def createViolinChart (df : DataFrame) (config : ChartConfig) : Except PyExc Figure := do
  let x ← getOptColE df config.x_column
  let y ← getOptColE df config.y_columns.head?
  let color ← getOptColE df config.color_column
  .ok { base := .pxViolin x y color true }

/-- `VizEngine._create_heatmap`: correlation mode when `x_column` equals the
`__correlation__` sentinel, otherwise a density heatmap.  The correlation
matrix itself is computed by pandas; the figure records the columns it was
computed from. -/
def createHeatmap (df : DataFrame) (config : ChartConfig) : Except PyExc Figure := do
  if config.x_column == some "__correlation__" then do
    let names := if !config.y_columns.isEmpty then config.y_columns
      else (df.cols.filter (fun c => npIsNumberDtype c.dtype)).map (·.name)
    let cols ← names.mapM (getColE df)
    .ok { base := .pxImshowCorr cols, preOps := [.imshowTextOverlay] }
  else do
    let x ← getOptColE df config.x_column
    let y ← getOptColE df config.y_columns.head?
    .ok { base := .pxDensityHeatmap x y }

/-- `VizEngine._create_area_chart`. -/
def createAreaChart (df : DataFrame) (config : ChartConfig) : Except PyExc Figure := do
  let colors := paletteOf config
  if !config.y2_columns.isEmpty then do
    let xvals ←
      if optTruthy config.x_column then (getColE df (config.x_column.getD "")).map (·.vals)
      else pure df.indexVals
    let prim ← config.y_columns.enum.mapM (fun p => do
      let yc ← getColE df p.2
      pure ({ xs := xvals, ys := yc.vals, mode := "lines",
              name := p.2 ++ " (gauche)",
              fill := some (if p.1 == 0 then "tozeroy" else "tonexty"),
              lineColor := some (cycleGet colors p.1), lineWidth := config.line_width,
              opacity := some config.opacity, secondary := some false } : PTrace))
    let sec ← config.y2_columns.enum.mapM (fun p => do
      let yc ← getColE df p.2
      pure ({ xs := xvals, ys := yc.vals, mode := "lines",
              name := p.2 ++ " (droite)",
              lineColor := some (cycleGet colors (config.y_columns.length + p.1)),
              dash := some "dash", lineWidth := config.line_width,
              opacity := some config.opacity, secondary := some true } : PTrace))
    let ops :=
      (if strTruthy config.y_axis.label then [AxisOp.yTitleText false config.y_axis.label] else [])
      ++ (if strTruthy config.y2_axis.label then [AxisOp.yTitleText true config.y2_axis.label] else [])
    .ok { base := .goTracesFig true (prim ++ sec), preOps := ops }
  else
    match config.y_columns with
    | [] => .ok { base := .goTracesFig false [] }
    | _ => do
      let xvals ←
        if optTruthy config.x_column then (getColE df (config.x_column.getD "")).map (·.vals)
        else pure df.indexVals
      let traces ← config.y_columns.enum.mapM (fun p => do
        let yc ← getColE df p.2
        pure ({ xs := xvals, ys := yc.vals, mode := "lines", name := p.2,
                fill := some (if p.1 > 0 then "tonexty" else "tozeroy"),
                lineColor := some (cycleGet colors p.1), lineWidth := config.line_width,
                opacity := some config.opacity } : PTrace))
      .ok { base := .goTracesFig false traces }

/-- `VizEngine._create_pie_chart`. -/
def createPieChart (df : DataFrame) (config : ChartConfig) : Except PyExc Figure := do
  let names ← getOptColE df config.x_column
  let values ← getOptColE df config.y_columns.head?
  .ok { base := .pxPie names values }

/-- `VizEngine._create_bubble_chart` (the same `px.scatter` call as the
scatter routine, without the marker-size update). -/
def createBubbleChart (df : DataFrame) (config : ChartConfig) : Except PyExc Figure := do
  let x ← getOptColE df config.x_column
  let y ← getOptColE df config.y_columns.head?
  let size ← getOptColE df config.size_column
  let color ← getOptColE df config.color_column
  .ok { base := .pxScatter x y color size config.opacity }

/-- `VizEngine._create_funnel_chart` (note the swap: px `x` gets the y
column, px `y` gets `x_column`). -/
def createFunnelChart (df : DataFrame) (config : ChartConfig) : Except PyExc Figure := do
  let x ← getOptColE df config.y_columns.head?
  let y ← getOptColE df config.x_column
  let color ← getOptColE df config.color_column
  .ok { base := .pxFunnel x y color }

def treemapPathE (df : DataFrame) (config : ChartConfig) :
    Except PyExc (List (Option String)) := do
  let path1 ←
    if optTruthy config.x_column then pure [config.x_column]
    else
      match df.cols.head? with
      | some c => pure [some c.name]
      | none => .error (.indexError "index 0 is out of bounds")
  if optTruthy config.color_column && !(config.color_column == config.x_column) then
    pure [config.color_column, config.x_column]
  else pure path1

def pathColsE (df : DataFrame) (path : List (Option String)) :
    Except PyExc (List DFColumn) :=
  path.mapM (fun o =>
    match o with
    | none => .error (.valueError "None entry in path")
    | some n =>
      match df.getCol? n with
      | some c => .ok c
      | none => .error (.valueError ("Value of argument is not the name of a column in data_frame: " ++ n)))

/-- `VizEngine._create_treemap`. -/
def createTreemap (df : DataFrame) (config : ChartConfig) : Except PyExc Figure := do
  let y_col := config.y_columns.head?
  let path ← treemapPathE df config
  let pathCols ← pathColsE df path
  let values ← getOptColE df y_col
  let color ← getOptColE df y_col
  .ok { base := .pxTreemap pathCols values color }

/-- `VizEngine._create_sunburst`. -/
def createSunburst (df : DataFrame) (config : ChartConfig) : Except PyExc Figure := do
  let y_col := config.y_columns.head?
  let path ← treemapPathE df config
  let pathCols ← pathColsE df path
  let values ← getOptColE df y_col
  let color ← getOptColE df y_col
  .ok { base := .pxSunburst pathCols values color }

/-- `pd.Series.unique()`: distinct values in appearance order (one NaN kept);
raises on unhashable/raising objects. -/
def seriesUniqueE (vs : List Val) : Except PyExc (List Val) :=
  match vs.find? (fun v => isUnhashable v || isRaisingObj v) with
  | some (.vComplexObj _) => .error (.typeError "unhashable type")
  | some (.vRaising m) => .error (.otherError m)
  | _ => .ok (vs.foldl
      (fun acc v =>
        if acc.any (fun w => pyEqVal w v || (w == Val.null && v == Val.null)) then acc
        else acc ++ [v]) [])

/-- `series.mean()` on a group: NaN for an empty group, TypeError when the
values are not numeric. -/
def pyMeanE (vs : List Val) : Except PyExc Val :=
  if (nonNull vs).all (fun v => (toQ? v).isSome) then
    let qs := numericVals vs
    if qs.isEmpty then .ok .null
    else .ok (.vFloat (qs.sum / (qs.length : Rat)))
  else .error (.typeError "could not compute mean of non-numeric values")

/-- `VizEngine._create_radar_chart`. -/
def createRadarChart (df : DataFrame) (config : ChartConfig) : Except PyExc Figure := do
  let colors := paletteOf config
  if config.y_columns.isEmpty then
    .ok { base := .radarFig [], preOps := [.polarRadialVisible] }
  else
    let categories := config.y_columns
    let thetasClosed := categories ++ [categories.headD ""]
    if optTruthy config.color_column && df.columnNames.contains (config.color_column.getD "") then do
      let cc ← getColE df (config.color_column.getD "")
      let uniques ← seriesUniqueE cc.vals
      let traces ← uniques.enum.mapM (fun p => do
        let values ← categories.mapM (fun col => do
          let c ← getColE df col
          pyMeanE ((cc.vals.zip c.vals).filterMap
            (fun q => if pyEqVal q.1 p.2 then some q.2 else none)))
        pure ({ ys := values ++ [values.headD .null], thetas := thetasClosed,
                name := pyStr p.2, fill := some "toself",
                lineColor := some (cycleGet colors p.1),
                opacity := some config.opacity } : PTrace))
      .ok { base := .radarFig traces, preOps := [.polarRadialVisible] }
    else do
      let values ← categories.mapM (fun col => do
        let c ← getColE df col
        pyMeanE c.vals)
      .ok { base := .radarFig
              [{ ys := values ++ [values.headD .null], thetas := thetasClosed,
                 name := "Données", fill := some "toself",
                 lineColor := some (cycleGet colors 0),
                 opacity := some config.opacity }]
            preOps := [.polarRadialVisible] }

/-- `VizEngine._create_parallel_coords` (total: every looked-up name is
filtered against the frame first). -/
def createParallelCoords (df : DataFrame) (config : ChartConfig) : Except PyExc Figure := do
  let numeric_cols := (df.cols.filter (fun c => npIsNumberDtype c.dtype)).map (·.name)
  let dims :=
    if !config.y_columns.isEmpty then config.y_columns.filter (fun c => numeric_cols.contains c)
    else numeric_cols.take 6
  let color :=
    if optTruthy config.color_column && numeric_cols.contains (config.color_column.getD "") then
      config.color_column
    else dims.head?
  .ok { base := .pxParallel dims color }

/-- `VizEngine._create_candlestick`. -/
def createCandlestick (df : DataFrame) (config : ChartConfig) : Except PyExc Figure := do
  let numeric_cols := (df.cols.filter (fun c => npIsNumberDtype c.dtype)).map (·.name)
  let ohlc ←
    if numeric_cols.length ≥ 4 then
      pure (numeric_cols.getD 0 "", numeric_cols.getD 1 "", numeric_cols.getD 2 "",
        numeric_cols.getD 3 "")
    else if config.y_columns.length ≥ 4 then
      pure (config.y_columns.getD 0 "", config.y_columns.getD 1 "", config.y_columns.getD 2 "",
        config.y_columns.getD 3 "")
    else
      match config.y_columns.head? with
      | some y => pure (y, y, y, y)
      | none =>
        match numeric_cols.head? with
        | some n => pure (n, n, n, n)
        | none => .error (.indexError "list index out of range")
  let xvals ←
    if optTruthy config.x_column then (getColE df (config.x_column.getD "")).map (·.vals)
    else pure df.indexVals
  match ohlc with
  | (o, h, l, c) => do
    let oc ← getColE df o
    let hc ← getColE df h
    let lc ← getColE df l
    let cc ← getColE df c
    .ok { base := .goCandlestick xvals oc hc lc cc }

/-- `VizEngine._create_waterfall`. -/
def createWaterfall (df : DataFrame) (config : ChartConfig) : Except PyExc Figure := do
  let y_col := config.y_columns.head?
  let n := df.nRows
  let measures := if n == 0 then [] else List.replicate (n - 1) "relative" ++ ["total"]
  let xvals ←
    if optTruthy config.x_column then (getColE df (config.x_column.getD "")).map (·.vals)
    else pure df.indexVals
  let yvals ←
    if optTruthy y_col then (getColE df (y_col.getD "")).map (·.vals)
    else pure []
  .ok { base := .goWaterfall xvals yvals measures }

/-- `VizEngine._create_polar_chart` (color falls back to `x_column` when
`color_column` is falsy). -/
def createPolarChart (df : DataFrame) (config : ChartConfig) : Except PyExc Figure := do
  let r ← getOptColE df config.y_columns.head?
  let theta ← getOptColE df config.x_column
  let color ← getOptColE df
    (if optTruthy config.color_column then config.color_column else config.x_column)
  .ok { base := .pxBarPolar r theta color }

/-- `VizEngine._create_contour`. -/
def createContour (df : DataFrame) (config : ChartConfig) : Except PyExc Figure := do
  let x ← getOptColE df config.x_column
  let y ← getOptColE df config.y_columns.head?
  let color ← getOptColE df config.color_column
  .ok { base := .pxDensityContour x y color, preOps := [.contoursColoringFill] }

/-- `VizEngine._create_density`. -/
def createDensity (df : DataFrame) (config : ChartConfig) : Except PyExc Figure := do
  let x ← getOptColE df config.x_column
  let y ← getOptColE df config.y_columns.head?
  .ok { base := .pxDensityHeatmapMarginal x y }

/-! ### Shared styling and the top-level entry point -/

/-- The theme keys of `THEMES` in src/viz/themes.py. -/
def themeNames : List String :=
  ["nature", "science", "ieee", "modern_dark", "minimal", "seaborn", "vibrant", "academic"]

/-- `get_theme`: unknown names fall back to the "nature" theme. -/
def getThemeKey (n : String) : String := if themeNames.contains n then n else "nature"

/-- `grid_dash_map.get(style, None)` ("solid" maps to None). -/
def gridDashOf (style : String) : Option String :=
  if style == "dashed" then some "dash"
  else if style == "dotted" then some "dot"
  else if style == "dashdot" then some "dashdot"
  else none

/-- `marker_symbol_map.get(style, "circle")` (the map is the identity on the
eight known symbols). -/
def markerSymbolOf (s : String) : String := if symbolList.contains s then s else "circle"

/-- `line_dash_map.get(style, "solid")`. -/
def lineDashOf (s : String) : String :=
  if ["solid", "dash", "dot", "dashdot", "longdash", "longdashdot"].contains s then s
  else "solid"

def insidePosSpec (p : String) : Option PosSpec :=
  if p == "inside_top_right" then some ⟨mkRat 98 100, mkRat 98 100, "right", "top"⟩
  else if p == "inside_top_left" then some ⟨mkRat 2 100, mkRat 98 100, "left", "top"⟩
  else if p == "inside_top_center" then some ⟨mkRat 1 2, mkRat 98 100, "center", "top"⟩
  else if p == "inside_bottom_right" then some ⟨mkRat 98 100, mkRat 2 100, "right", "bottom"⟩
  else if p == "inside_bottom_left" then some ⟨mkRat 2 100, mkRat 2 100, "left", "bottom"⟩
  else if p == "inside_bottom_center" then some ⟨mkRat 1 2, mkRat 2 100, "center", "bottom"⟩
  else none

def outsidePosSpec (p : String) : Option PosSpec :=
  if p == "right" then some ⟨mkRat 102 100, mkRat 1 2, "left", "middle"⟩
  else if p == "left" then some ⟨mkRat (-15) 100, mkRat 1 2, "right", "middle"⟩
  else if p == "top" then some ⟨mkRat 1 2, mkRat 105 100, "center", "bottom"⟩
  else if p == "bottom" then some ⟨mkRat 1 2, mkRat (-15) 100, "center", "top"⟩
  else if p == "top_center" then some ⟨mkRat 1 2, mkRat 108 100, "center", "bottom"⟩
  else if p == "bottom_center" then some ⟨mkRat 1 2, mkRat (-18) 100, "center", "top"⟩
  else none

/-- Legend anchor resolution: inside positions first, then outside, with the
"right" anchor as the default. -/
def legendPosSpec (p : String) : PosSpec :=
  match insidePosSpec p with
  | some s => s
  | none => (outsidePosSpec p).getD ⟨mkRat 102 100, mkRat 1 2, "left", "middle"⟩

/-- The layout updates of `_apply_common_styling` (everything before the
regression/annotation steps), as one record. -/
def mkStyleRec (config : ChartConfig) : StyleRec :=
  { themeKey := getThemeKey config.theme
    title := config.title
    subtitle := if optTruthy config.subtitle then config.subtitle else none
    xLabel := if strTruthy config.x_axis.label then some config.x_axis.label else none
    yLabel := if strTruthy config.y_axis.label then some config.y_axis.label else none
    xLog := config.x_axis.log_scale
    yLog := config.y_axis.log_scale
    xRange :=
      if config.x_axis.min_value.isSome || config.x_axis.max_value.isSome then
        some (config.x_axis.min_value, config.x_axis.max_value)
      else none
    yRange :=
      if config.y_axis.min_value.isSome || config.y_axis.max_value.isSome then
        some (config.y_axis.min_value, config.y_axis.max_value)
      else none
    yToZero := config.y_axis.start_zero
    xShowGrid := config.x_axis.show_grid && config.grid.show_
    yShowGrid := config.y_axis.show_grid && config.grid.show_
    gridColor := config.grid.color
    gridWidth := config.grid.width
    gridDash := gridDashOf config.grid.style
    legendSpec :=
      if config.legend.show_ then
        some ((if config.legend.orientation == "horizontal" then "h" else "v"),
          legendPosSpec config.legend.position,
          config.legend.background_alpha, config.legend.font_size)
      else none
    markerSymbolApplied :=
      if config.y_columns.length ≤ 1 then some (markerSymbolOf config.marker_style) else none
    lineDashApplied := lineDashOf config.line_style }

/-- `VizEngine._apply_common_styling`: theme/title/axes/grid/legend updates,
then the regression overlay (only when enabled with a truthy `x_column` and a
non-empty `y_columns`), then the annotations (only when the list is
non-empty).  Total: its two fallible sub-steps swallow their own failures. -/
def applyCommonStyling (df : DataFrame) (fig : Figure) (config : ChartConfig) : Figure :=
  let fig1 := { fig with styling := some (mkStyleRec config) }
  let fig2 :=
    if config.regression.enabled && optTruthy config.x_column && !config.y_columns.isEmpty then
      addRegressionLine df fig1 config
    else fig1
  if !config.annotations.isEmpty then addAnns fig2 config else fig2

/-- The chart-type dispatch of `VizEngine.create_plotly_figure` (the final
`else` of the source is unreachable: the enum match is exhaustive). -/
def dispatchCreate (df : DataFrame) (config : ChartConfig) : Except PyExc Figure :=
  match config.chart_type with
  | .LINE => createLineChart df config
  | .SCATTER => createScatterChart df config
  | .BAR => createBarChart df config
  | .HISTOGRAM => createHistogram df config
  | .BOX => createBoxChart df config
  | .VIOLIN => createViolinChart df config
  | .HEATMAP => createHeatmap df config
  | .AREA => createAreaChart df config
  | .PIE => createPieChart df config
  | .BUBBLE => createBubbleChart df config
  | .FUNNEL => createFunnelChart df config
  | .TREEMAP => createTreemap df config
  | .SUNBURST => createSunburst df config
  | .RADAR => createRadarChart df config
  | .PARALLEL_COORDS => createParallelCoords df config
  | .CANDLESTICK => createCandlestick df config
  | .WATERFALL => createWaterfall df config
  | .POLAR => createPolarChart df config
  | .CONTOUR => createContour df config
  | .DENSITY => createDensity df config

/-- The body of the engine's `try`: dispatch, then shared styling. -/
def createFigureE (df : DataFrame) (config : ChartConfig) : Except PyExc Figure := do
  let fig ← dispatchCreate df config
  .ok (applyCommonStyling df fig config)

/-- `VizEngine.create_plotly_figure` together with its stored error state:
the figure (or None) paired with `last_error` after the call.  Any exception
from dispatch or styling is caught and becomes the stored message. -/
def createPlotlyFigure (df : DataFrame) (config : ChartConfig) :
    Option Figure × Option String :=
  match createFigureE df config with
  | .ok fig => (some fig, none)
  | .error e => (none, some ("Erreur de création: " ++ e.msg))

/-- `_validate_config` from src/components/chart_preview.py: the soft
validation gate the preview applies before invoking the engine. -/
def validate_config (config : ChartConfig) : Bool :=
  if chartTypeValue config.chart_type == "heatmap" then
    config.y_columns.length ≥ 2
  else if chartTypeValue config.chart_type == "histogram" then
    config.x_column.isSome
  else
    config.x_column.isSome || !config.y_columns.isEmpty

/-! ## Theorems -/

/-- Shared step: values inside the True/False/0/1 set with a unique count of
at most 2 make `_detect_column_type` return boolean. -/
theorem detect_boolean_aux (d : Dtype) (vs : List Val) (uc : Nat)
    (hvals : ∀ v ∈ nonNull vs, pyIn01 v = true) (huc : uc ≤ 2) :
    detectColumnTypeE d vs uc = .ok ColumnType.BOOLEAN := by
  have hfind : (nonNull vs).find? (fun v => isUnhashable v || isRaisingObj v) = none := by
    rw [List.find?_eq_none]
    intro v hv
    have h := hvals v hv
    cases v <;> simp_all [pyIn01, toQ?, isUnhashable, isRaisingObj]
  have hall : (nonNull vs).all pyIn01 = true := by
    rw [List.all_eq_true]; exact hvals
  unfold detectColumnTypeE boolSubsetCheckE
  rw [hfind]
  by_cases hd : d == Dtype.bool <;> simp [hd, hall, huc] <;> rfl

/-- C7: every column whose non-null values are all contained in the Python
set with True, False, 0 and 1 and whose unique count is at most 2 is
classified boolean by `_detect_column_type`, whatever the dtype — in
particular for 0/1 integers stored with a numeric dtype: the boolean rule
precedes the numeric rule. -/
theorem boolean_rule_precedence (d : Dtype) (vs : List Val) (uc : Nat)
    (hvals : ∀ v ∈ nonNull vs, pyIn01 v = true) (huc : uc ≤ 2) :
    detectColumnTypeE d vs uc = .ok ColumnType.BOOLEAN :=
  detect_boolean_aux d vs uc hvals huc

/-- Witness for C7: a 0/1 integer column with numeric dtype and two distinct
values is classified boolean. -/
theorem boolean_rule_precedence_witness :
    (∀ v ∈ nonNull [Val.vInt 0, Val.vInt 1, Val.vInt 1], pyIn01 v = true) ∧ 2 ≤ 2 ∧
      detectColumnTypeE Dtype.int64 [Val.vInt 0, Val.vInt 1, Val.vInt 1] 2 =
        .ok ColumnType.BOOLEAN :=
  ⟨by decide, by decide,
    boolean_rule_precedence Dtype.int64 [Val.vInt 0, Val.vInt 1, Val.vInt 1] 2
      (by decide) (by decide)⟩

/-- C8: a column with a numeric dtype is never classified categorical by
`_detect_column_type`, whatever its values and cardinality — the categorical
threshold only applies to object/string columns. -/
theorem numeric_dtype_never_categorical (d : Dtype) (vs : List Val) (uc : Nat)
    (h : pandasIsNumericDtype d = true) :
    detectColumnTypeE d vs uc ≠ .ok ColumnType.CATEGORICAL := by
  intro hc
  unfold detectColumnTypeE at hc
  rcases hb : boolSubsetCheckE vs with e | b <;>
    cases d <;> simp [pandasIsNumericDtype] at h <;>
    simp [hb, Except.bind, pure, Except.pure] at hc <;>
    split_ifs at hc <;>
    simp_all [pandasIsNumericDtype, bind, Except.bind] <;>
    split_ifs at hc <;> simp_all

/-- Witness for C8: an integer column with 21 distinct small values stays
numeric (not categorical). -/
theorem numeric_dtype_never_categorical_witness :
    pandasIsNumericDtype Dtype.int64 = true ∧
      detectColumnTypeE Dtype.int64 ((List.range 21).map (fun i => Val.vInt i)) 21 ≠
        .ok ColumnType.CATEGORICAL :=
  ⟨by decide,
    numeric_dtype_never_categorical Dtype.int64 ((List.range 21).map (fun i => Val.vInt i)) 21
      (by decide)⟩

/-- C10: a column with zero non-null values — e.g. an all-null float or
all-null object column — is classified boolean by the analyzer (the empty
value set is a subset of the boolean set and the unique count 0 is at
most 2), not numeric, temporal or unknown. -/
theorem allnull_column_boolean (df : DataFrame) (c : DFColumn)
    (h : nonNull c.vals = []) :
    (analyzeOneColumn df c).column_type = ColumnType.BOOLEAN := by
  have h1 : containsComplexObjects c = false := by
    unfold containsComplexObjects
    rw [h]
    simp
  have h2 : nuniqueE c.vals = .ok 0 := by
    unfold nuniqueE
    rw [h]
    rfl
  have h3 : detectColumnTypeE c.dtype c.vals 0 = .ok ColumnType.BOOLEAN :=
    detect_boolean_aux c.dtype c.vals 0 (by rw [h]; simp) (by omega)
  unfold analyzeOneColumn analyzeColumnE
  simp [h1, h2, h3, bind, Except.bind, pure, Except.pure]

/-- Witness for C10: an all-null float column is classified boolean. -/
theorem allnull_column_boolean_witness :
    nonNull [Val.null, Val.null] = [] ∧
      (analyzeOneColumn ⟨[⟨"a", Dtype.float64, [Val.null, Val.null]⟩]⟩
        ⟨"a", Dtype.float64, [Val.null, Val.null]⟩).column_type = ColumnType.BOOLEAN :=
  ⟨by decide,
    allnull_column_boolean ⟨[⟨"a", Dtype.float64, [Val.null, Val.null]⟩]⟩
      ⟨"a", Dtype.float64, [Val.null, Val.null]⟩ (by decide)⟩

/-- Every successful per-column analysis keeps the column's name. -/
theorem analyzeColumnE_name (df : DataFrame) (c : DFColumn) (p : ColumnProfile)
    (h : analyzeColumnE df c = .ok p) : p.name = c.name := by
  unfold analyzeColumnE at h
  simp only [bind, Except.bind, pure, Except.pure] at h
  split_ifs at h
  all_goals (repeat split at h)
  all_goals (try split_ifs at h)
  all_goals (repeat split at h)
  all_goals simp_all
  all_goals (first | rfl | rw [← h])

/-- The per-column step (with its fallback) keeps the column's name. -/
theorem analyzeOneColumn_name (df : DataFrame) (c : DFColumn) :
    (analyzeOneColumn df c).name = c.name := by
  unfold analyzeOneColumn
  cases hae : analyzeColumnE df c with
  | ok p => exact analyzeColumnE_name df c p hae
  | error e => rfl

/-- C5: `analyze` is total and yields exactly one profile per input column,
in input order; every profile's type is one of the six defined values; and a
column whose per-column analysis raises degrades to the unknown zero-stats
fallback profile instead of aborting the whole analysis. -/
theorem analyze_shape_and_degradation (df : DataFrame) :
    ((analyze df).columns.map (fun p => p.name) = df.cols.map (fun c => c.name)) ∧
    (analyze df).columns.length = df.cols.length ∧
    (∀ p ∈ (analyze df).columns,
      p.column_type = ColumnType.NUMERIC ∨ p.column_type = ColumnType.CATEGORICAL ∨
      p.column_type = ColumnType.TEMPORAL ∨ p.column_type = ColumnType.TEXT ∨
      p.column_type = ColumnType.BOOLEAN ∨ p.column_type = ColumnType.UNKNOWN) ∧
    (∀ (i : Nat) (c : DFColumn), df.cols[i]? = some c → (analyzeColumnE df c).isOk = false →
      (analyze df).columns[i]? = some (fallbackProfile c)) := by
  refine ⟨?_, ?_, ?_, ?_⟩
  · show (df.cols.map (analyzeOneColumn df)).map (fun p => p.name) = _
    rw [List.map_map]
    exact List.map_congr_left (fun c _ => analyzeOneColumn_name df c)
  · show (df.cols.map (analyzeOneColumn df)).length = _
    exact List.length_map _ _
  · intro p _
    cases p.column_type <;> tauto
  · intro i c hic hfail
    show (df.cols.map (analyzeOneColumn df))[i]? = _
    rw [List.getElem?_map, hic]
    unfold analyzeOneColumn
    cases hae : analyzeColumnE df c with
    | ok p => rw [hae] at hfail; exact absurd hfail (by simp [Except.isOk, Except.toBool])
    | error e => simp [hae]

/-- Witness for C5: a column holding an object whose pandas operations raise
a non-TypeError exception makes the per-column analysis fail, and `analyze`
degrades exactly that column to the fallback profile. -/
theorem analyze_shape_and_degradation_witness :
    (DataFrame.mk [⟨"w", Dtype.object, [Val.vRaising "boom"]⟩]).cols[0]? =
        some ⟨"w", Dtype.object, [Val.vRaising "boom"]⟩ ∧
      (analyzeColumnE (DataFrame.mk [⟨"w", Dtype.object, [Val.vRaising "boom"]⟩])
        ⟨"w", Dtype.object, [Val.vRaising "boom"]⟩).isOk = false ∧
      (analyze (DataFrame.mk [⟨"w", Dtype.object, [Val.vRaising "boom"]⟩])).columns[0]? =
        some (fallbackProfile ⟨"w", Dtype.object, [Val.vRaising "boom"]⟩) :=
  ⟨by decide, by decide,
    (analyze_shape_and_degradation (DataFrame.mk [⟨"w", Dtype.object, [Val.vRaising "boom"]⟩])).2.2.2
      0 ⟨"w", Dtype.object, [Val.vRaising "boom"]⟩ (by decide) (by decide)⟩

theorem mem_insByScoreDesc (s x : ChartSuggestion) (l : List ChartSuggestion) :
    x ∈ insByScoreDesc s l ↔ x = s ∨ x ∈ l := by
  induction l with
  | nil => simp [insByScoreDesc]
  | cons t ts ih =>
    by_cases hc : s.score ≥ t.score <;> simp [insByScoreDesc, hc, ih] <;> tauto

theorem mem_sortByScoreDesc (x : ChartSuggestion) (l : List ChartSuggestion) :
    x ∈ sortByScoreDesc l ↔ x ∈ l := by
  induction l with
  | nil => simp [sortByScoreDesc]
  | cons t ts ih => simp [sortByScoreDesc, mem_insByScoreDesc, ih]

theorem chain_insByScoreDesc (s : ChartSuggestion) (l : List ChartSuggestion)
    (h : List.Chain' (fun a b => b.score ≤ a.score) l) :
    List.Chain' (fun a b => b.score ≤ a.score) (insByScoreDesc s l) := by
  induction l with
  | nil => simp [insByScoreDesc]
  | cons t ts ih =>
    by_cases hc : s.score ≥ t.score
    · rw [insByScoreDesc, if_pos hc]
      exact List.chain'_cons.mpr ⟨hc, h⟩
    · rw [insByScoreDesc, if_neg hc]
      cases ts with
      | nil =>
        simp [insByScoreDesc]
        exact le_of_lt (lt_of_not_ge hc)
      | cons u us =>
        have hmain := List.chain'_cons.mp h
        by_cases hcu : s.score ≥ u.score
        · rw [insByScoreDesc, if_pos hcu]
          exact List.chain'_cons.mpr ⟨le_of_lt (lt_of_not_ge hc),
            List.chain'_cons.mpr ⟨hcu, hmain.2⟩⟩
        · have hrec := ih hmain.2
          rw [insByScoreDesc, if_neg hcu] at hrec ⊢
          exact List.chain'_cons.mpr ⟨hmain.1, hrec⟩

theorem chain_sortByScoreDesc (l : List ChartSuggestion) :
    List.Chain' (fun a b => b.score ≤ a.score) (sortByScoreDesc l) := by
  induction l with
  | nil => simp [sortByScoreDesc]
  | cons t ts ih => exact chain_insByScoreDesc t _ ih

theorem head_ge_of_chain :
    ∀ (l : List ChartSuggestion) (hd : ChartSuggestion), l.head? = some hd →
      List.Chain' (fun a b => b.score ≤ a.score) l → ∀ x ∈ l, x.score ≤ hd.score := by
  intro l
  induction l with
  | nil => intro hd h; simp at h
  | cons t ts ih =>
    intro hd hh hchain x hx
    simp only [List.head?_cons, Option.some.injEq] at hh
    subst hh
    rcases List.mem_cons.mp hx with hx | hx
    · subst hx; exact le_refl _
    · cases ts with
      | nil => cases hx
      | cons u us =>
        have h1 := List.chain'_cons.mp hchain
        exact le_trans (ih u rfl h1.2 x hx) h1.1

/-- Every candidate suggestion scores at most 0.95, and only the line
suggestions reach 0.95. -/
theorem rawSuggestions_score_bound (columns : List ColumnProfile) :
    ∀ x ∈ rawSuggestions columns,
      x.score ≤ mkRat 95 100 ∧ (x.score = mkRat 95 100 → x.chart_type = ChartType.LINE) := by
  intro x hx
  simp only [rawSuggestions, List.mem_append] at hx
  rcases hx with ((((h | h) | h) | h) | h) | h
  · split at h
    · rcases List.mem_flatMap.mp h with ⟨t, _, hm⟩
      rcases List.mem_map.mp hm with ⟨n, _, rfl⟩
      exact ⟨le_refl _, fun _ => rfl⟩
    · exact absurd h (List.not_mem_nil _)
  all_goals
    (repeat split at h) <;>
      first
      | exact absurd h (List.not_mem_nil _)
      | (rcases List.mem_singleton.mp h with rfl
         constructor
         · dsimp only
           decide
         · intro hcontra
           dsimp only at hcontra
           exact absurd hcontra (by decide))
      | (rcases List.mem_map.mp h with ⟨n, _, rfl⟩
         constructor
         · dsimp only
           decide
         · intro hcontra
           dsimp only at hcontra
           exact absurd hcontra (by decide))

/-- C6 (amended): the suggestion list `analyze` builds is sorted by
descending heuristic score, the returned names are at most five, and when the
table has both a temporal and a numeric column the top name is "line"
(0.95 is the strict maximum of the heuristic scores and only line
suggestions carry it).  Duplicate chart-type names are NOT collapsed: the
same name may appear several times among the five. -/
theorem suggestions_sorted_top5_line (df : DataFrame) :
    List.Chain' (fun a b => b.score ≤ a.score) (suggestCharts (analyze df).columns) ∧
    (analyze df).suggested_charts.length ≤ 5 ∧
    ((∃ p ∈ (analyze df).columns, p.column_type = ColumnType.TEMPORAL) →
      (∃ p ∈ (analyze df).columns, p.column_type = ColumnType.NUMERIC) →
      (analyze df).suggested_charts.head? = some "line") := by
  refine ⟨chain_sortByScoreDesc _, ?_, ?_⟩
  · show (((suggestCharts ((analyze df).columns)).take 5).map _).length ≤ 5
    rw [List.length_map]
    exact le_trans (List.length_take_le 5 _) (le_refl 5)
  · intro htemp hnum
    rcases htemp with ⟨tp, htpm, htpt⟩
    rcases hnum with ⟨np, hnpm, hnpt⟩
    have htf : tp ∈ (analyze df).columns.filter (fun c => c.column_type == ColumnType.TEMPORAL) := by
      rw [List.mem_filter]
      exact ⟨htpm, by simp [htpt]⟩
    have hnf : np ∈ (analyze df).columns.filter (fun c => c.column_type == ColumnType.NUMERIC) := by
      rw [List.mem_filter]
      exact ⟨hnpm, by simp [hnpt]⟩
    rcases hft : (analyze df).columns.filter (fun c => c.column_type == ColumnType.TEMPORAL) with
      _ | ⟨t0, ttail⟩
    · rw [hft] at htf; exact absurd htf (List.not_mem_nil _)
    rcases hfn : (analyze df).columns.filter (fun c => c.column_type == ColumnType.NUMERIC) with
      _ | ⟨n0, ntail⟩
    · rw [hfn] at hnf; exact absurd hnf (List.not_mem_nil _)
    set cols := (analyze df).columns with hcols
    set s0 : ChartSuggestion :=
      { chart_type := ChartType.LINE
        x_column := t0.name
        y_columns := [n0.name]
        reasoning := "Série temporelle: " ++ n0.name ++ " en fonction du temps"
        score := mkRat 95 100 } with hs0
    have hs0raw : s0 ∈ rawSuggestions cols := by
      simp only [rawSuggestions, hft, hfn, List.mem_append]
      refine Or.inl (Or.inl (Or.inl (Or.inl (Or.inl ?_))))
      simp
    have hs0sort : s0 ∈ suggestCharts cols := (mem_sortByScoreDesc _ _).mpr hs0raw
    rcases hsc : suggestCharts cols with _ | ⟨hd, rest⟩
    · rw [hsc] at hs0sort; exact absurd hs0sort (List.not_mem_nil _)
    have hchain := chain_sortByScoreDesc (rawSuggestions cols)
    rw [show sortByScoreDesc (rawSuggestions cols) = suggestCharts cols from rfl, hsc] at hchain
    have hhdmem : hd ∈ suggestCharts cols := by rw [hsc]; exact List.mem_cons_self hd rest
    have hhdraw : hd ∈ rawSuggestions cols := (mem_sortByScoreDesc _ _).mp hhdmem
    have hble := rawSuggestions_score_bound cols hd hhdraw
    have hs0le : s0.score ≤ hd.score := by
      apply head_ge_of_chain (hd :: rest) hd rfl hchain
      rw [← hsc]; exact hs0sort
    have hhdscore : hd.score = mkRat 95 100 := le_antisymm hble.1 hs0le
    have hhdline : hd.chart_type = ChartType.LINE := hble.2 hhdscore
    show (((suggestCharts cols).take 5).map (fun s => chartTypeValue s.chart_type)).head? =
      some "line"
    rw [hsc]
    simp [List.head?, hhdline, chartTypeValue]

/-- Witness for C6: on a table with one datetime and two integer columns the
top suggestion is "line". -/
theorem suggestions_sorted_top5_line_witness :
    (∃ p ∈ (analyze (DataFrame.mk
        [⟨"d", Dtype.datetime64, [Val.vDate 1, Val.vDate 2, Val.vDate 3]⟩,
         ⟨"a", Dtype.int64, [Val.vInt 5, Val.vInt 6, Val.vInt 7]⟩,
         ⟨"b", Dtype.int64, [Val.vInt 2, Val.vInt 3, Val.vInt 4]⟩])).columns,
      p.column_type = ColumnType.TEMPORAL) ∧
    (∃ p ∈ (analyze (DataFrame.mk
        [⟨"d", Dtype.datetime64, [Val.vDate 1, Val.vDate 2, Val.vDate 3]⟩,
         ⟨"a", Dtype.int64, [Val.vInt 5, Val.vInt 6, Val.vInt 7]⟩,
         ⟨"b", Dtype.int64, [Val.vInt 2, Val.vInt 3, Val.vInt 4]⟩])).columns,
      p.column_type = ColumnType.NUMERIC) ∧
    (analyze (DataFrame.mk
        [⟨"d", Dtype.datetime64, [Val.vDate 1, Val.vDate 2, Val.vDate 3]⟩,
         ⟨"a", Dtype.int64, [Val.vInt 5, Val.vInt 6, Val.vInt 7]⟩,
         ⟨"b", Dtype.int64, [Val.vInt 2, Val.vInt 3, Val.vInt 4]⟩])).suggested_charts.head? =
      some "line" :=
  ⟨by decide, by decide,
    (suggestions_sorted_top5_line (DataFrame.mk
        [⟨"d", Dtype.datetime64, [Val.vDate 1, Val.vDate 2, Val.vDate 3]⟩,
         ⟨"a", Dtype.int64, [Val.vInt 5, Val.vInt 6, Val.vInt 7]⟩,
         ⟨"b", Dtype.int64, [Val.vInt 2, Val.vInt 3, Val.vInt 4]⟩])).2.2
      (by decide) (by decide)⟩

/-- Counterexample for C6 as stated: with one temporal and two numeric
columns the returned names repeat "line" and "histogram" — duplicates are
not collapsed to their first occurrence. -/
theorem suggestions_duplicates_counterexample :
    (analyze (DataFrame.mk
        [⟨"d", Dtype.datetime64, [Val.vDate 1, Val.vDate 2, Val.vDate 3]⟩,
         ⟨"a", Dtype.int64, [Val.vInt 5, Val.vInt 6, Val.vInt 7]⟩,
         ⟨"b", Dtype.int64, [Val.vInt 2, Val.vInt 3, Val.vInt 4]⟩])).suggested_charts =
      ["line", "line", "scatter", "histogram", "histogram"] ∧
    ¬ (analyze (DataFrame.mk
        [⟨"d", Dtype.datetime64, [Val.vDate 1, Val.vDate 2, Val.vDate 3]⟩,
         ⟨"a", Dtype.int64, [Val.vInt 5, Val.vInt 6, Val.vInt 7]⟩,
         ⟨"b", Dtype.int64, [Val.vInt 2, Val.vInt 3, Val.vInt 4]⟩])).suggested_charts.Nodup := by
  constructor <;> decide

/-- C9: when the regression overlay runs but fewer than 2 valid (non-NaN)
paired points survive the numeric coercion and row cleaning,
`_add_regression_line` returns the figure unchanged — no regression trace is
added — and no exception escapes (the function is total; the guard fires
before any fitting). -/
theorem regression_few_points_unchanged (df : DataFrame) (fig : Figure)
    (config : ChartConfig) (xc yc : DFColumn) (xname yname : String)
    (hx : config.x_column = some xname) (hgx : getColE df xname = .ok xc)
    (hy : config.y_columns.head? = some yname) (hgy : getColE df yname = .ok yc)
    (hfew : (cleanedPairs xc yc).length < 2) :
    addRegressionLine df fig config = fig := by
  unfold addRegressionLine addRegressionLineE
  rw [hx]
  simp only [bind, Except.bind, hgx]
  rw [hy]
  simp only [hgy]
  simp [hfew]

/-- Witness for C9: a two-row frame where the x value is NaN in one row and
the y value in the other leaves zero clean pairs; the figure comes back
unchanged. -/
theorem regression_few_points_unchanged_witness :
    ({ chart_type := ChartType.SCATTER, x_column := some "x", y_columns := ["y"],
       regression := { enabled := true } } : ChartConfig).x_column = some "x" ∧
    getColE (DataFrame.mk [⟨"x", Dtype.float64, [Val.vFloat 1, Val.null]⟩,
        ⟨"y", Dtype.float64, [Val.null, Val.vFloat 2]⟩]) "x" =
      .ok ⟨"x", Dtype.float64, [Val.vFloat 1, Val.null]⟩ ∧
    (cleanedPairs ⟨"x", Dtype.float64, [Val.vFloat 1, Val.null]⟩
        ⟨"y", Dtype.float64, [Val.null, Val.vFloat 2]⟩).length < 2 ∧
    addRegressionLine
        (DataFrame.mk [⟨"x", Dtype.float64, [Val.vFloat 1, Val.null]⟩,
          ⟨"y", Dtype.float64, [Val.null, Val.vFloat 2]⟩])
        { base := BaseFig.goTracesFig false [] }
        { chart_type := ChartType.SCATTER, x_column := some "x", y_columns := ["y"],
          regression := { enabled := true } } =
      { base := BaseFig.goTracesFig false [] } :=
  ⟨rfl, rfl, by decide,
    regression_few_points_unchanged
      (DataFrame.mk [⟨"x", Dtype.float64, [Val.vFloat 1, Val.null]⟩,
        ⟨"y", Dtype.float64, [Val.null, Val.vFloat 2]⟩])
      { base := BaseFig.goTracesFig false [] }
      { chart_type := ChartType.SCATTER, x_column := some "x", y_columns := ["y"],
        regression := { enabled := true } }
      ⟨"x", Dtype.float64, [Val.vFloat 1, Val.null]⟩
      ⟨"y", Dtype.float64, [Val.null, Val.vFloat 2]⟩
      "x" "y" rfl rfl rfl rfl (by decide)⟩

/-- The stored error message always starts with the fixed French prefix, so
it is never empty. -/
theorem errMsg_ne_empty (m : String) : ("Erreur de création: " ++ m) ≠ "" := by
  intro hemp
  have hlen : ("Erreur de création: " ++ m).length = 0 := by rw [hemp]; rfl
  rw [String.length_append] at hlen
  have : ("Erreur de création: ").length = 20 := by decide
  omega

/-- C2: `create_plotly_figure` never lets an exception propagate: the call is
total, and either it returns a figure with no stored error, or it returns
None together with a stored non-empty error string (the caught exception's
message behind the fixed French prefix) — so a None check suffices for
callers. -/
theorem create_plotly_figure_total (df : DataFrame) (config : ChartConfig) :
    ((createPlotlyFigure df config).1 = none →
      ∃ e, (createPlotlyFigure df config).2 = some e ∧ e ≠ "") ∧
    (∀ fig, (createPlotlyFigure df config).1 = some fig →
      (createPlotlyFigure df config).2 = none) := by
  unfold createPlotlyFigure
  cases h : createFigureE df config with
  | ok fig =>
    constructor
    · intro hn
      simp at hn
    · intro f _
      rfl
  | error e =>
    constructor
    · intro _
      exact ⟨"Erreur de création: " ++ e.msg, rfl, errMsg_ne_empty e.msg⟩
    · intro f hf
      simp at hf

/-- Witness for C2: a scatter configuration referencing a column absent from
an empty frame makes the engine return None with a non-empty stored error. -/
theorem create_plotly_figure_total_witness :
    (createPlotlyFigure (DataFrame.mk [])
        { chart_type := ChartType.SCATTER, x_column := some "gone" }).1 = none ∧
    ∃ e, (createPlotlyFigure (DataFrame.mk [])
        { chart_type := ChartType.SCATTER, x_column := some "gone" }).2 = some e ∧ e ≠ "" :=
  ⟨rfl,
    (create_plotly_figure_total (DataFrame.mk [])
      { chart_type := ChartType.SCATTER, x_column := some "gone" }).1 rfl⟩

/-! ### JSON round-trip lemmas -/

theorem jsonDumpLoad_pdict (kvs : List (String × PyObj)) :
    jsonDumpLoad (.pdict kvs) = .pdict (jsonDumpLoadKVs kvs) := rfl

theorem jsonDumpLoad_plist (xs : List PyObj) :
    jsonDumpLoad (.plist xs) = .plist (jsonDumpLoadList xs) := rfl

theorem jsonDumpLoad_pstr (s : String) : jsonDumpLoad (.pstr s) = .pstr s := rfl

theorem jsonDumpLoad_pint (n : Int) : jsonDumpLoad (.pint n) = .pint n := rfl

theorem jsonDumpLoad_pfloat (q : Rat) : jsonDumpLoad (.pfloat q) = .pfloat q := rfl

theorem jsonDumpLoad_pbool (b : Bool) : jsonDumpLoad (.pbool b) = .pbool b := rfl

theorem jsonDumpLoad_penum (c v : String) : jsonDumpLoad (.penum c v) = .pstr v := rfl

theorem jsonDumpLoad_dumpOptStr (o : Option String) :
    jsonDumpLoad (dumpOptStr o) = dumpOptStr o := by cases o <;> rfl

theorem jsonDumpLoad_dumpOptQ (o : Option Rat) :
    jsonDumpLoad (dumpOptQ o) = dumpOptQ o := by cases o <;> rfl

theorem jsonDumpLoadList_pstr (l : List String) :
    jsonDumpLoadList (l.map PyObj.pstr) = l.map PyObj.pstr := by
  induction l with
  | nil => rfl
  | cons s ss ih => simp [jsonDumpLoadList, jsonDumpLoad, ih]

theorem jsonDumpLoad_dumpStrList (l : List String) :
    jsonDumpLoad (dumpStrList l) = dumpStrList l := by
  simp [dumpStrList, jsonDumpLoad, jsonDumpLoadList_pstr]

theorem jsonDumpLoad_dumpOptStrList (o : Option (List String)) :
    jsonDumpLoad (dumpOptStrList o) = dumpOptStrList o := by
  cases o with
  | none => rfl
  | some l => simp [dumpOptStrList, jsonDumpLoad_dumpStrList]

theorem parseOptStrE_dump (o : Option String) : parseOptStrE (dumpOptStr o) = .ok o := by
  cases o <;> rfl

theorem parseOptFloatE_dump (o : Option Rat) : parseOptFloatE (dumpOptQ o) = .ok o := by
  cases o <;> rfl

theorem parseStrListE_dump (l : List String) : parseStrListE (dumpStrList l) = .ok l := by
  induction l with
  | nil => rfl
  | cons s ss ih =>
    simp only [dumpStrList, parseStrListE, List.map_cons, List.mapM_cons] at ih ⊢
    simp_all [parseStrE, bind, Except.bind, pure, Except.pure]

theorem parseOptStrListE_dump (o : Option (List String)) :
    parseOptStrListE (dumpOptStrList o) = .ok o := by
  cases o with
  | none => rfl
  | some l =>
    have h := parseStrListE_dump l
    simp only [dumpStrList] at h
    simp [dumpOptStrList, dumpStrList, parseOptStrListE, h, Except.map]

theorem parseChartTypeE_value (t : ChartType) :
    parseChartTypeE (.pstr (chartTypeValue t)) = .ok t := by cases t <;> rfl

set_option maxHeartbeats 1000000 in
theorem validateAxisConfig_dump (a : AxisConfig) :
    validateAxisConfig (jsonDumpLoad a.modelDump) = .ok a := by
  cases a with
  | mk l mn mx lg sg tf sz => cases mn <;> cases mx <;> cases tf <;> rfl

theorem validateGridConfig_dump (g : GridConfig) :
    validateGridConfig (jsonDumpLoad g.modelDump) = .ok g := by
  cases g
  rfl

theorem validateLegendConfig_dump (l : LegendConfig) :
    validateLegendConfig (jsonDumpLoad l.modelDump) = .ok l := by
  cases l with
  | mk s p o t fs ba => cases t <;> rfl

theorem validateRegressionConfig_dump (r : RegressionConfig) :
    validateRegressionConfig (jsonDumpLoad r.modelDump) = .ok r := by
  cases r with
  | mk en t dg se sr lc lw ls => cases t <;> rfl

set_option maxHeartbeats 4000000 in
theorem validateAnnotationConfig_dump (a : AnnotationConfig) :
    validateAnnotationConfig (jsonDumpLoad a.modelDump) = .ok a := by
  cases a with
  | mk t tx x y xe ye fs col ah ahs lwd udc op bgc bgo boc bow fo =>
    cases t <;> cases ahs <;> cases xe <;> cases ye <;> cases bgc <;> cases boc <;> rfl

theorem parseAnnotationListE_dump (l : List AnnotationConfig) :
    parseAnnotationListE (jsonDumpLoad (.plist (l.map AnnotationConfig.modelDump))) = .ok l := by
  rw [jsonDumpLoad_plist]
  induction l with
  | nil => rfl
  | cons a as ih =>
    rw [List.map_cons,
      show jsonDumpLoadList (AnnotationConfig.modelDump a :: List.map AnnotationConfig.modelDump as) =
        jsonDumpLoad (AnnotationConfig.modelDump a) ::
          jsonDumpLoadList (List.map AnnotationConfig.modelDump as) from rfl]
    simp only [parseAnnotationListE, List.mapM_cons] at ih ⊢
    simp only [List.mapM] at ih
    simp [validateAnnotationConfig_dump a, bind, Except.bind, pure, Except.pure, ih]

set_option maxHeartbeats 4000000 in
/-- The JSON leg round-trips: validating `json.loads(json.dumps(model_dump))`
reconstructs the configuration field for field. -/
theorem chartConfig_json_roundtrip_aux (c : ChartConfig) :
    ChartConfig.from_json_data (ChartConfig.to_json_data c) = .ok c := by
  cases c with
  | mk ct xcol ycols ccol scol fcol y2cols y2ax agg gby ttl sub xax yax leg grd thm pal
      ms lw op mst lst sv anns reg =>
    simp only [ChartConfig.from_json_data, ChartConfig.to_json_data, ChartConfig.modelDump,
      jsonDumpLoad_pdict, jsonDumpLoadKVs, jsonDumpLoad_pstr, jsonDumpLoad_pint,
      jsonDumpLoad_pfloat, jsonDumpLoad_pbool, jsonDumpLoad_penum,
      jsonDumpLoad_dumpOptStr, jsonDumpLoad_dumpOptQ, jsonDumpLoad_dumpStrList,
      jsonDumpLoad_dumpOptStrList]
    simp only [validateChartConfig, vfield, getField?, List.find?, String.reduceBEq,
      beq_self_eq_true, Option.map, Option.getD]
    simp only [parseChartTypeE_value, parseOptStrE_dump, parseOptFloatE_dump,
      parseStrListE_dump, parseOptStrListE_dump, validateAxisConfig_dump,
      validateGridConfig_dump, validateLegendConfig_dump, validateRegressionConfig_dump,
      parseAnnotationListE_dump, parseStrE, parseFloatE, parseIntE, parseBoolE,
      bind, Except.bind, pure, Except.pure]

/-- The YAML leg fails for every configuration: `yaml.dump` represents the
`chart_type` enum member as a `!!python/object/apply` node, and
`yaml.safe_load` raises a ConstructorError on that tag before any field can
be reconstructed. -/
theorem chartConfig_yaml_fails_aux (c : ChartConfig) :
    ChartConfig.from_yaml_node (ChartConfig.to_yaml_node c) =
      .error ("could not determine a constructor for the tag " ++
        "tag:yaml.org,2002:python/object/apply:core.models.ChartType") := rfl

/-- C3 (code bug): the JSON round-trip reconstructs every field of every
`ChartConfig` exactly, but the YAML round-trip never succeeds — `to_yaml`
serializes enum fields via PyYAML's `represent_object` as
`!!python/object/apply` tags, and `from_yaml`'s `safe_load` rejects those
tags, raising instead of returning an equal configuration. -/
theorem chartConfig_roundtrip_json_ok_yaml_raises (c : ChartConfig) :
    ChartConfig.from_json_data (ChartConfig.to_json_data c) = .ok c ∧
    ∃ e, ChartConfig.from_yaml_node (ChartConfig.to_yaml_node c) = .error e :=
  ⟨chartConfig_json_roundtrip_aux c, ⟨_, chartConfig_yaml_fails_aux c⟩⟩

/-- Counterexample for C4 as stated: a template saved with `x_column = "gone"`
loads back verbatim — the reference to a column that the current table does
not have is neither dropped nor nulled on the load path. -/
theorem template_load_dangling_counterexample :
    load_template_model { chart_type := ChartType.SCATTER, x_column := some "gone" } =
      .ok { chart_type := ChartType.SCATTER, x_column := some "gone" } ∧
    ({ chart_type := ChartType.SCATTER, x_column := some "gone" } : ChartConfig).x_column =
      some "gone" ∧
    (DataFrame.mk [⟨"a", Dtype.int64, [Val.vInt 1]⟩]).getCol? "gone" = none :=
  ⟨chartConfig_json_roundtrip_aux _, rfl, rfl⟩

/-- C4 (amended): loading a saved configuration performs no column
filtering — the configuration is reconstructed verbatim, dangling references
included, and reaches the renderer; the engine defends at render time by
catching the failed lookup: a scatter configuration whose `x_column` is
absent from the table renders to None with a non-empty stored error, not an
exception. -/
theorem dangling_reference_engine_defense (df : DataFrame) (cfg : ChartConfig) (xc : String)
    (hchart : cfg.chart_type = ChartType.SCATTER)
    (hx : cfg.x_column = some xc)
    (hmiss : df.getCol? xc = none) :
    load_template_model cfg = .ok cfg ∧
    (createPlotlyFigure df cfg).1 = none ∧
    ∃ e, (createPlotlyFigure df cfg).2 = some e ∧ e ≠ "" := by
  have herr : createFigureE df cfg =
      .error (.valueError ("Value of argument is not the name of a column in data_frame: " ++ xc)) := by
    unfold createFigureE dispatchCreate
    rw [hchart]
    unfold createScatterChart
    rw [hx]
    simp [getOptColE, hmiss, bind, Except.bind]
  refine ⟨chartConfig_json_roundtrip_aux cfg, ?_, ?_⟩
  · unfold createPlotlyFigure
    rw [herr]
  · unfold createPlotlyFigure
    rw [herr]
    exact ⟨_, rfl, errMsg_ne_empty _⟩

/-- Witness for C4 (amended): the concrete dangling scatter configuration
against a one-column table. -/
theorem dangling_reference_engine_defense_witness :
    load_template_model { chart_type := ChartType.SCATTER, x_column := some "stale" } =
      .ok { chart_type := ChartType.SCATTER, x_column := some "stale" } ∧
    (createPlotlyFigure (DataFrame.mk [⟨"b", Dtype.int64, [Val.vInt 2]⟩])
      { chart_type := ChartType.SCATTER, x_column := some "stale" }).1 = none ∧
    ∃ e, (createPlotlyFigure (DataFrame.mk [⟨"b", Dtype.int64, [Val.vInt 2]⟩])
      { chart_type := ChartType.SCATTER, x_column := some "stale" }).2 = some e ∧ e ≠ "" :=
  dangling_reference_engine_defense (DataFrame.mk [⟨"b", Dtype.int64, [Val.vInt 2]⟩])
    { chart_type := ChartType.SCATTER, x_column := some "stale" } "stale" rfl rfl rfl

/-- Counterexample for C1 as stated: a heatmap configuration with a single
`y_columns` entry does NOT make `create_plotly_figure` return None — the
engine happily renders the one-column correlation matrix and stores no
error. -/
theorem heatmap_few_ycols_counterexample :
    ({ chart_type := ChartType.HEATMAP, x_column := some "__correlation__",
       y_columns := ["a"] } : ChartConfig).chart_type = ChartType.HEATMAP ∧
    ({ chart_type := ChartType.HEATMAP, x_column := some "__correlation__",
       y_columns := ["a"] } : ChartConfig).y_columns.length < 2 ∧
    (createPlotlyFigure (DataFrame.mk [⟨"a", Dtype.int64, [Val.vInt 1, Val.vInt 2, Val.vInt 3]⟩])
      { chart_type := ChartType.HEATMAP, x_column := some "__correlation__",
        y_columns := ["a"] }).1 ≠ none ∧
    (createPlotlyFigure (DataFrame.mk [⟨"a", Dtype.int64, [Val.vInt 1, Val.vInt 2, Val.vInt 3]⟩])
      { chart_type := ChartType.HEATMAP, x_column := some "__correlation__",
        y_columns := ["a"] }).2 = none := by
  refine ⟨rfl, by decide, ?_, rfl⟩
  intro h
  exact Option.noConfusion h

/-- C1 (amended): a heatmap configuration with fewer than two `y_columns`
entries is rejected by the preview's soft validation gate
(`_validate_config` returns false), so the preview shows the "configure
first" message and returns None without invoking the engine and without a
stored error; the engine itself never raises and does not return None merely
because `y_columns` is short. -/
theorem heatmap_few_ycols_validation (config : ChartConfig)
    (hchart : config.chart_type = ChartType.HEATMAP)
    (hy : config.y_columns.length < 2) :
    validate_config config = false := by
  unfold validate_config
  rw [hchart]
  simp [chartTypeValue, decide_eq_false_iff_not]
  omega

/-- Witness for C1 (amended): the concrete one-column heatmap configuration
fails validation. -/
theorem heatmap_few_ycols_validation_witness :
    ({ chart_type := ChartType.HEATMAP, x_column := some "__correlation__",
       y_columns := ["a"] } : ChartConfig).chart_type = ChartType.HEATMAP ∧
    ({ chart_type := ChartType.HEATMAP, x_column := some "__correlation__",
       y_columns := ["a"] } : ChartConfig).y_columns.length < 2 ∧
    validate_config
      ({ chart_type := ChartType.HEATMAP, x_column := some "__correlation__",
         y_columns := ["a"] } : ChartConfig) = false :=
  ⟨rfl, by decide,
    heatmap_few_ycols_validation
      ({ chart_type := ChartType.HEATMAP, x_column := some "__correlation__",
         y_columns := ["a"] } : ChartConfig) rfl (by decide)⟩

end FigGen
